import Mathlib

/-!
# gl9_scene: the asteroid simulation step

A shallow embedding of `src/gl9_scene/asteroid.cpp` (`Asteroid::Asteroid`,
`Asteroid::update`, `Asteroid::explode`, `Asteroid::onClick`) and the properties of
it that the specification states.

Conventions of the embedding.

* `float` values are exact rationals: `+`, `*`, `/` and the comparisons are the exact
  ones, so rounding, NaN and infinities are outside the model. The literals
  `0.5f`, `0.7f`, `10.0f`, `1.1f` are the rationals `1/2`, `7/10`, `10`, `11/10`.
  The statements that turn on rounding (how `age += dt` moves the age, where the boundary
  of the proximity test lies) are made on `Asteroid.stepWith`, which takes the float
  operations of the machine as parameters.
* `scene.objects` is a list; an object is identified by its index in that list, which
  plays the part of the pointer held by the scene. The updating asteroid (`this`) is
  passed as a value together with the index `selfIdx` of its own slot; the scan skips
  that slot, as `obj.get() == this` does, whatever the slot holds.
* `glm::linearRand` and `glm::ballRand` draw from an explicit random source that is
  threaded through the operations.
* Rendering (`render`, the shader, mesh and texture resources) and the console output
  of `onClick` are not modelled.
-/

namespace Gl9Scene

/-! ## Vectors -/

/-- A `glm::vec3` with rational components. -/
structure Vec3 where
  x : ℚ
  y : ℚ
  z : ℚ
deriving DecidableEq

namespace Vec3

/-- Component-wise sum, `a + b`. -/
def add (a b : Vec3) : Vec3 := ⟨a.x + b.x, a.y + b.y, a.z + b.z⟩

/-- Vector times scalar, `a * k`. -/
def smul (a : Vec3) (k : ℚ) : Vec3 := ⟨a.x * k, a.y * k, a.z * k⟩

/-- Vector divided by scalar, `a / k`. -/
def sdiv (a : Vec3) (k : ℚ) : Vec3 := ⟨a.x / k, a.y / k, a.z / k⟩

instance : Add Vec3 := ⟨add⟩

/-- Squared Euclidean distance between two points. -/
def distSq (a b : Vec3) : ℚ :=
  (a.x - b.x) * (a.x - b.x) + (a.y - b.y) * (a.y - b.y) + (a.z - b.z) * (a.z - b.z)

/-- The test `distance(a, b) < t`. The distance is a square root, so the test is
evaluated on the squares: it holds exactly when `t` is positive and the squared
distance is below `t * t` (see `distanceLt_iff_sqrt`). -/
def distanceLt (a b : Vec3) (t : ℚ) : Prop := 0 < t ∧ distSq a b < t * t

instance (a b : Vec3) (t : ℚ) : Decidable (distanceLt a b t) := by
  unfold distanceLt; infer_instance

end Vec3

/-! ## Objects of the scene -/

/-- The model matrix of an object. `generateModelMatrix` (object.cpp) computes it from
position, rotation and scale; the embedding records those three inputs instead of the
sixteen floats. -/
structure ModelMatrix where
  position : Vec3
  rotation : Vec3
  scale : Vec3
deriving DecidableEq

/-- The members of the base class `Object`. -/
structure ObjectBase where
  position : Vec3
  rotation : Vec3
  scale : Vec3
  modelMatrix : ModelMatrix
deriving DecidableEq

/-- An `Asteroid`: the `Object` members, its age and its linear and angular velocity. -/
structure Asteroid where
  position : Vec3
  rotation : Vec3
  scale : Vec3
  modelMatrix : ModelMatrix
  age : ℚ
  speed : Vec3
  rotMomentum : Vec3
deriving DecidableEq

/-- A `Projectile`: the `Object` members and the flag that `destroy()` sets. -/
structure Projectile where
  position : Vec3
  rotation : Vec3
  scale : Vec3
  modelMatrix : ModelMatrix
  destroyed : Bool
deriving DecidableEq

/-- An `Explosion`: the `Object` members, its velocity and its age. -/
structure Explosion where
  position : Vec3
  rotation : Vec3
  scale : Vec3
  modelMatrix : ModelMatrix
  speed : Vec3
  age : ℚ
deriving DecidableEq

/-- What a `std::unique_ptr<Object>` of the scene can point to: one of the three
variants the asteroid code names, or any other subclass of `Object`. -/
inductive Obj where
  | asteroid (a : Asteroid)
  | projectile (p : Projectile)
  | explosion (e : Explosion)
  | other (o : ObjectBase)
deriving DecidableEq

namespace Obj

/-- The member `obj->position`. -/
def position : Obj → Vec3
  | asteroid a => a.position
  | projectile p => p.position
  | explosion e => e.position
  | other o => o.position

/-- The member `obj->scale`. -/
def scale : Obj → Vec3
  | asteroid a => a.scale
  | projectile p => p.scale
  | explosion e => e.scale
  | other o => o.scale

/-- The cast `dynamic_cast<Asteroid*>(obj.get())`: `none` is the null pointer. -/
def asAsteroid : Obj → Option Asteroid
  | asteroid a => some a
  | _ => none

/-- The cast `dynamic_cast<Projectile*>(obj.get())`: `none` is the null pointer. -/
def asProjectile : Obj → Option Projectile
  | projectile p => some p
  | _ => none

/-- Whether the object is an `Explosion`. -/
def isExplosion : Obj → Bool
  | explosion _ => true
  | _ => false

/-- Whether the object is an `Asteroid`. -/
def isAsteroid : Obj → Bool
  | asteroid _ => true
  | _ => false

end Obj

/-- The part of `Scene` that the asteroid's update reads and writes: the ordered
collection `scene.objects`. -/
structure Scene where
  objects : List Obj
deriving DecidableEq

/-- The call `scene.objects.push_back(obj)`. -/
def Scene.pushBack (scene : Scene) (obj : Obj) : Scene :=
  { objects := scene.objects ++ [obj] }

/-- Modelled from the spec: `Projectile::destroy` (projectile.cpp is not among the
sources). The spec gives a projectile "a destroyed flag (boolean, initially false),
set externally when it collides with an asteroid". -/
def Projectile.destroy (p : Projectile) : Projectile :=
  { p with destroyed := true }

/-- The effect on the scene of `projectile->destroy()` for the projectile `p` held in
slot `i`. -/
def Scene.destroyAt (scene : Scene) (i : Nat) (p : Projectile) : Scene :=
  { objects := scene.objects.set i (Obj.projectile p.destroy) }

/-! ## The random source and the constructors -/

/-- One raw draw of the generator, scaled to the unit interval. -/
structure UnitSample where
  val : ℚ
  nonneg : 0 ≤ val
  le_one : val ≤ 1

/-- The random source: the draws that successive `linearRand` calls will use and the
vectors that successive `ballRand(PI)` calls will return. -/
structure Rng where
  lin : Nat → UnitSample
  ball : Nat → Vec3

/-- The call `glm::linearRand(lo, hi)`: the next draw, mapped affinely from the unit
interval to the interval between `lo` and `hi`. -/
def Rng.linearRand (rng : Rng) (lo hi : ℚ) : ℚ × Rng :=
  ((rng.lin 0).val * (hi - lo) + lo, { rng with lin := fun n => rng.lin (n + 1) })

/-- The call `glm::ballRand(ppgso::PI)`. -/
def Rng.ballRand (rng : Rng) : Vec3 × Rng :=
  (rng.ball 0, { rng with ball := fun n => rng.ball (n + 1) })

/-- What the translation unit takes from code outside it: the state in which the
`Object` constructor leaves the base members, and the state in which the `Explosion`
constructor leaves a new explosion. -/
structure Env where
  objectInit : ObjectBase
  explosionInit : Explosion

/-- Modelled from the spec: the initial value of the member `age` (asteroid.h is not
among the sources). The spec has "age starts at 0". -/
def Asteroid.initialAge : ℚ := 0

/-- The constructor `Asteroid::Asteroid()`: random scale, speed, rotation and
angular velocity on top of the members as the `Object` constructor leaves them. -/
def Asteroid.new (env : Env) (rng : Rng) : Asteroid × Rng :=
  let (k, rng) := rng.linearRand (11 / 10) 3
  let (sx, rng) := rng.linearRand (-2) 2
  let (sy, rng) := rng.linearRand (-5) (-10)
  let (rot, rng) := rng.ballRand
  let (mom, rng) := rng.ballRand
  ({ position := env.objectInit.position
     rotation := rot
     scale := env.objectInit.scale.smul k
     modelMatrix := env.objectInit.modelMatrix
     age := Asteroid.initialAge
     speed := ⟨sx, sy, 0⟩
     rotMomentum := mom }, rng)

/-! ## explode, update, onClick -/

/-- One turn of the loop of `Asteroid::explode`: the fragment that is pushed. -/
def Asteroid.fragment (self : Asteroid) (env : Env) (pieces : Int) (rng : Rng) :
    Asteroid × Rng :=
  let (asteroid, rng) := Asteroid.new env rng
  let (px, rng) := rng.linearRand (-3) 3
  let (py, rng) := rng.linearRand 0 (-5)
  let factor : ℚ := (pieces : ℚ) / 2
  ({ asteroid with
      speed := self.speed + ⟨px, py, 0⟩
      position := self.position
      rotMomentum := self.rotMomentum
      scale := self.scale.sdiv factor }, rng)

/-- The loop `for (int i = 0; i < pieces; i++)` of `Asteroid::explode`, with `n` turns
left to run. -/
def Asteroid.spawnPieces (self : Asteroid) (env : Env) (pieces : Int) :
    Nat → Scene → Rng → Scene × Rng
  | 0, scene, rng => (scene, rng)
  | n + 1, scene, rng =>
    let (asteroid, rng) := self.fragment env pieces rng
    Asteroid.spawnPieces self env pieces n (scene.pushBack (Obj.asteroid asteroid)) rng

/-- The method `Asteroid::explode(scene, explosionPosition, explosionScale, pieces)`. -/
def Asteroid.explode (self : Asteroid) (env : Env) (scene : Scene)
    (explosionPosition explosionScale : Vec3) (pieces : Int) (rng : Rng) : Scene × Rng :=
  let explosion : Explosion :=
    { env.explosionInit with
      position := explosionPosition
      scale := explosionScale
      speed := self.speed.sdiv 2 }
  let scene := scene.pushBack (Obj.explosion explosion)
  self.spawnPieces env pieces pieces.toNat scene rng

/-- The first three statements of `Asteroid::update`: age, position and rotation
advance by `dt`. -/
def Asteroid.integrate (self : Asteroid) (dt : ℚ) : Asteroid :=
  { self with
    age := self.age + dt
    position := self.position + self.speed.smul dt
    rotation := self.rotation + self.rotMomentum.smul dt }

/-- The condition `age > 10.0f || position.y < -10`. -/
def Asteroid.expired (self : Asteroid) : Prop :=
  self.age > 10 ∨ self.position.y < -10

instance (self : Asteroid) : Decidable self.expired := by
  unfold Asteroid.expired; infer_instance

/-- Modelled from the spec: `Object::generateModelMatrix` (object.cpp is not among the
sources). The spec has the model transform "recomputed from position/rotation/scale". -/
def Asteroid.generateModelMatrix (self : Asteroid) : Asteroid :=
  { self with modelMatrix := ⟨self.position, self.rotation, self.scale⟩ }

/-- The loop `for (auto &obj : scene.objects)` of `Asteroid::update`, at the object of
index `i` with the objects from `i` on still to visit. `none`: the loop ran to its
end; `some`: the body returned `false`, with the scene and random source it left. -/
def Asteroid.collideFrom (self : Asteroid) (selfIdx : Nat) (env : Env) (scene : Scene)
    (rng : Rng) : Nat → List Obj → Option (Scene × Rng)
  | _, [] => none
  | i, obj :: rest =>
    if i = selfIdx then Asteroid.collideFrom self selfIdx env scene rng (i + 1) rest
    else
      let asteroid := obj.asAsteroid
      let projectile := obj.asProjectile
      if asteroid.isNone ∧ projectile.isNone then
        Asteroid.collideFrom self selfIdx env scene rng (i + 1) rest
      else if asteroid.isSome ∧ self.age < 1 / 2 then
        Asteroid.collideFrom self selfIdx env scene rng (i + 1) rest
      else if Vec3.distanceLt self.position obj.position
          ((obj.scale.y + self.scale.y) * (7 / 10)) then
        let pieces : Int := if self.scale.y < 1 / 2 then 0 else 3
        let scene :=
          match projectile with
          | some p => scene.destroyAt i p
          | none => scene
        some (self.explode env scene ((obj.position + self.position).sdiv 2)
          ((obj.scale + self.scale).sdiv 2) pieces rng)
      else Asteroid.collideFrom self selfIdx env scene rng (i + 1) rest

/-- What a call of `update` leaves: the returned flag, the asteroid, the scene and the
random source. -/
structure UpdateResult where
  alive : Bool
  asteroid : Asteroid
  scene : Scene
  rng : Rng

/-- The method `Asteroid::update(scene, dt)` of the asteroid held in slot `selfIdx`. -/
def Asteroid.update (self : Asteroid) (selfIdx : Nat) (env : Env) (scene : Scene)
    (dt : ℚ) (rng : Rng) : UpdateResult :=
  let self := self.integrate dt
  if self.expired then ⟨false, self, scene, rng⟩
  else
    match self.collideFrom selfIdx env scene rng 0 scene.objects with
    | some (scene, rng) => ⟨false, self, scene, rng⟩
    | none => ⟨true, self.generateModelMatrix, scene, rng⟩

/-- The method `Asteroid::onClick(scene)`. -/
def Asteroid.onClick (self : Asteroid) (env : Env) (scene : Scene) (rng : Rng) :
    Asteroid × Scene × Rng :=
  let (scene, rng) := self.explode env scene self.position ⟨10, 10, 10⟩ 0 rng
  ({ self with age := 10000 }, scene, rng)

/-! ## explode with the division made fallible -/

/-- Vector divided by scalar, failing on a zero divisor. -/
def Vec3.sdivChecked (a : Vec3) (k : ℚ) : Option Vec3 :=
  if k = 0 then none else some (a.sdiv k)

/-- One turn of the loop of `Asteroid::explode` as in `Asteroid.fragment`, with the
division `scale / factor` failing (`none`) when `factor` is zero. -/
def Asteroid.fragmentChecked (self : Asteroid) (env : Env) (pieces : Int) (rng : Rng) :
    Option (Asteroid × Rng) :=
  let (asteroid, rng) := Asteroid.new env rng
  let (px, rng) := rng.linearRand (-3) 3
  let (py, rng) := rng.linearRand 0 (-5)
  let factor : ℚ := (pieces : ℚ) / 2
  match self.scale.sdivChecked factor with
  | none => none
  | some scale =>
    some ({ asteroid with
      speed := self.speed + ⟨px, py, 0⟩
      position := self.position
      rotMomentum := self.rotMomentum
      scale := scale }, rng)

/-- The loop of `Asteroid::explode` as in `Asteroid.spawnPieces`, failing as soon as a
turn divides by a zero factor. -/
def Asteroid.spawnPiecesChecked (self : Asteroid) (env : Env) (pieces : Int) :
    Nat → Scene → Rng → Option (Scene × Rng)
  | 0, scene, rng => some (scene, rng)
  | n + 1, scene, rng =>
    match self.fragmentChecked env pieces rng with
    | none => none
    | some (asteroid, rng) =>
      Asteroid.spawnPiecesChecked self env pieces n (scene.pushBack (Obj.asteroid asteroid))
        rng

/-- The method `Asteroid::explode` as in `Asteroid.explode`, failing when a turn of its
loop divides by a zero factor. -/
def Asteroid.explodeChecked (self : Asteroid) (env : Env) (scene : Scene)
    (explosionPosition explosionScale : Vec3) (pieces : Int) (rng : Rng) :
    Option (Scene × Rng) :=
  let explosion : Explosion :=
    { env.explosionInit with
      position := explosionPosition
      scale := explosionScale
      speed := self.speed.sdiv 2 }
  let scene := scene.pushBack (Obj.explosion explosion)
  self.spawnPiecesChecked env pieces pieces.toNat scene rng

/-- One frame as the frame driver presents it to an asteroid: the slot, the scene, the
elapsed time and the random source. -/
structure Frame where
  selfIdx : Nat
  scene : Scene
  dt : ℚ
  rng : Rng

/-! ## update with the float operations as parameters

`Asteroid.update` above computes with exact rationals. Where a statement turns on what
the `float` operations of the machine return (whether `age += dt` changes `age`, on which
side of the threshold a distance falls), the operations are parameters instead: every
finite `float` is a rational, so a `float` operation is a function on rationals, and the
comparisons of the source are the exact ones. -/

/-- The `float` operations that `Asteroid::update` uses up to its collision test, as the
machine performs them: sum, product, `glm::distance` and the value of the literal `0.7f`
(in binary32 that is 11744051 / 16777216). Of the sum it is known that adding zero
changes nothing and that adding a non-negative number does not give less, as for a sum
rounded to nearest. -/
structure FloatOps where
  add : ℚ → ℚ → ℚ
  mul : ℚ → ℚ → ℚ
  distance : Vec3 → Vec3 → ℚ
  c07 : ℚ
  add_zero : ∀ a, add a 0 = a
  le_add : ∀ a b, 0 ≤ b → a ≤ add a b

/-- Component-wise `a + b` with the machine's sum. -/
def FloatOps.vadd (ops : FloatOps) (a b : Vec3) : Vec3 :=
  ⟨ops.add a.x b.x, ops.add a.y b.y, ops.add a.z b.z⟩

/-- Vector times scalar, `a * k`, with the machine's product. -/
def FloatOps.vscale (ops : FloatOps) (a : Vec3) (k : ℚ) : Vec3 :=
  ⟨ops.mul a.x k, ops.mul a.y k, ops.mul a.z k⟩

/-- The first three statements of `Asteroid::update` with the machine's operations:
`age += dt`, `position += speed * dt`, `rotation += rotMomentum * dt`. -/
def Asteroid.integrateWith (ops : FloatOps) (self : Asteroid) (dt : ℚ) : Asteroid :=
  { self with
    age := ops.add self.age dt
    position := ops.vadd self.position (ops.vscale self.speed dt)
    rotation := ops.vadd self.rotation (ops.vscale self.rotMomentum dt) }

/-- The loop `for (auto &obj : scene.objects)` of `Asteroid::update` with the machine's
operations, at the object of index `i`, up to the point where its body finds a collision:
`some i` when the test of line 56 holds for the object of index `i` (the body then marks,
explodes and returns `false`), `none` when the loop runs to its end. -/
def Asteroid.scanWith (ops : FloatOps) (self : Asteroid) (selfIdx : Nat) :
    Nat → List Obj → Option Nat
  | _, [] => none
  | i, obj :: rest =>
    if i = selfIdx then Asteroid.scanWith ops self selfIdx (i + 1) rest
    else
      let asteroid := obj.asAsteroid
      let projectile := obj.asProjectile
      if asteroid.isNone ∧ projectile.isNone then
        Asteroid.scanWith ops self selfIdx (i + 1) rest
      else if asteroid.isSome ∧ self.age < 1 / 2 then
        Asteroid.scanWith ops self selfIdx (i + 1) rest
      else if ops.distance self.position obj.position <
          ops.mul (ops.add obj.scale.y self.scale.y) ops.c07 then
        some i
      else Asteroid.scanWith ops self selfIdx (i + 1) rest

/-- What `update` returns and what it leaves in the asteroid's own members. -/
structure StepResult where
  alive : Bool
  asteroid : Asteroid

/-- The method `Asteroid::update(scene, dt)` with the machine's operations, as far as its
return value and the asteroid's own members go; what it writes to the scene on a
collision (`destroy`, `explode`) is in `Asteroid.update`. -/
def Asteroid.stepWith (ops : FloatOps) (self : Asteroid) (selfIdx : Nat) (scene : Scene)
    (dt : ℚ) : StepResult :=
  let self := self.integrateWith ops dt
  if self.expired then ⟨false, self⟩
  else
    match self.scanWith ops selfIdx 0 scene.objects with
    | some _ => ⟨false, self⟩
    | none => ⟨true, self.generateModelMatrix⟩

/-- The asteroid after successive calls of `update` with the machine's operations, one
for each frame. -/
def Asteroid.runStepsWith (ops : FloatOps) (self : Asteroid) : List Frame → Asteroid
  | [] => self
  | f :: fs =>
    Asteroid.runStepsWith ops (self.stepWith ops f.selfIdx f.scene f.dt).asteroid fs

/-- The candidate `obj` passes the three tests of the loop body of `update`, the third
with the machine's operations. -/
def Asteroid.hitsWith (ops : FloatOps) (self : Asteroid) (obj : Obj) : Prop :=
  ¬ (obj.asAsteroid.isNone ∧ obj.asProjectile.isNone) ∧
  ¬ (obj.asAsteroid.isSome ∧ self.age < 1 / 2) ∧
  ops.distance self.position obj.position <
    ops.mul (ops.add obj.scale.y self.scale.y) ops.c07

/-! ## Vocabulary of the statements -/

/-- The candidate `obj` passes the three tests of the loop body of `update`: it is an
asteroid or a projectile, it is not an asteroid met during the first half second, and
it is closer than the threshold. -/
def Asteroid.hits (self : Asteroid) (obj : Obj) : Prop :=
  ¬ (obj.asAsteroid.isNone ∧ obj.asProjectile.isNone) ∧
  ¬ (obj.asAsteroid.isSome ∧ self.age < 1 / 2) ∧
  Vec3.distanceLt self.position obj.position ((obj.scale.y + self.scale.y) * (7 / 10))

instance (self : Asteroid) (obj : Obj) : Decidable (self.hits obj) := by
  unfold Asteroid.hits; infer_instance

/-- Some object of the scene other than the asteroid's own slot passes the tests. -/
def Asteroid.collides (self : Asteroid) (selfIdx : Nat) (scene : Scene) : Prop :=
  ∃ j obj, scene.objects[j]? = some obj ∧ j ≠ selfIdx ∧ self.hits obj

/-- The object `obj` in slot `j` is the first of the scene, in the order of
`scene.objects`, that passes the tests. -/
def Asteroid.firstHitAt (self : Asteroid) (selfIdx : Nat) (scene : Scene) (j : Nat)
    (obj : Obj) : Prop :=
  scene.objects[j]? = some obj ∧ j ≠ selfIdx ∧ self.hits obj ∧
    ∀ k o, k < j → scene.objects[k]? = some o → k = selfIdx ∨ ¬ self.hits o

/-- The objects that a call appended: those of `after` beyond the length of `before`. -/
def Scene.added (before after : Scene) : List Obj :=
  after.objects.drop before.objects.length

/-- The scene after the statement `if (projectile) projectile->destroy();` for the
candidate `obj` of slot `i`. -/
def Scene.marked (scene : Scene) (i : Nat) (obj : Obj) : Scene :=
  match obj.asProjectile with
  | some p => scene.destroyAt i p
  | none => scene

/-- The explosion that `explode` pushes. -/
def Asteroid.explosionAt (self : Asteroid) (env : Env) (c s : Vec3) : Explosion :=
  { env.explosionInit with position := c, scale := s, speed := self.speed.sdiv 2 }

/-- The fragments that `n` turns of the loop of `explode` push, in order. -/
def Asteroid.fragmentsFrom (self : Asteroid) (env : Env) (pieces : Int) :
    Nat → Rng → List Asteroid
  | 0, _ => []
  | n + 1, rng =>
    (self.fragment env pieces rng).1 ::
      Asteroid.fragmentsFrom self env pieces n (self.fragment env pieces rng).2

/-- The piece count that `update` passes to `explode`. -/
def Asteroid.pieceCount (self : Asteroid) : Int :=
  if self.scale.y < 1 / 2 then 0 else 3

/-- The asteroid after successive calls of `update`, one for each frame. -/
def Asteroid.runFrames (self : Asteroid) (env : Env) : List Frame → Asteroid
  | [] => self
  | f :: fs =>
    Asteroid.runFrames (self.update f.selfIdx env f.scene f.dt f.rng).asteroid env fs

/-- All three components are strictly positive. -/
def Vec3.positive (v : Vec3) : Prop := 0 < v.x ∧ 0 < v.y ∧ 0 < v.z

instance (v : Vec3) : Decidable v.positive := by
  unfold Vec3.positive; infer_instance

/-- The object after `if (projectile) projectile->destroy();` has run for it: a
projectile is marked destroyed, any other object is as it was. -/
def Obj.markedIfProjectile (obj : Obj) : Obj :=
  match obj.asProjectile with
  | some p => Obj.projectile p.destroy
  | none => obj

/-- The slot holds after the call the object it held before: the object as it was, or,
when `destroy()` was called on it, that projectile marked. -/
def Obj.sameObject (before after : Obj) : Prop :=
  after = before ∨ after = before.markedIfProjectile

/-- The asteroid `c` is a descendant of generation `k` of the asteroid `a`: generation 0
is `a` itself, and a descendant of generation `k + 1` is an asteroid appended by an
update of a descendant `b` of generation `k`, after `b` has lived through any number of
frames. -/
inductive Asteroid.Descendant (env : Env) : Nat → Asteroid → Asteroid → Prop where
  | self (a : Asteroid) : Asteroid.Descendant env 0 a a
  | fragment (k : Nat) (a b c : Asteroid) (fs : List Frame) (selfIdx : Nat) (scene : Scene)
      (dt : ℚ) (rng : Rng) :
      Asteroid.Descendant env k a b →
      Obj.asteroid c ∈
        Scene.added scene ((b.runFrames env fs).update selfIdx env scene dt rng).scene →
      Asteroid.Descendant env (k + 1) a c

/-- The asteroid, in any later frame of its life, appends no asteroid to the scene. -/
def Asteroid.neverSplits (c : Asteroid) (env : Env) : Prop :=
  ∀ (fs : List Frame) (selfIdx : Nat) (scene : Scene) (dt : ℚ) (rng : Rng) (d : Asteroid),
    Obj.asteroid d ∉
      Scene.added scene ((c.runFrames env fs).update selfIdx env scene dt rng).scene

/-- The asteroids that this code can hold: one made by the constructor, a fragment made
by `explode`, one of these after `update` or `onClick`, or one of these after the code
that puts it into the scene has written its position. -/
inductive Asteroid.Built (env : Env) : Asteroid → Prop where
  | constructed (rng : Rng) : Asteroid.Built env (Asteroid.new env rng).1
  | fragment (parent : Asteroid) (pieces : Int) (rng : Rng) :
      Asteroid.Built env parent → Asteroid.Built env (parent.fragment env pieces rng).1
  | updated (a : Asteroid) (selfIdx : Nat) (scene : Scene) (dt : ℚ) (rng : Rng) :
      Asteroid.Built env a → Asteroid.Built env (a.update selfIdx env scene dt rng).asteroid
  | clicked (a : Asteroid) (scene : Scene) (rng : Rng) :
      Asteroid.Built env a → Asteroid.Built env (a.onClick env scene rng).1
  | placed (a : Asteroid) (p : Vec3) :
      Asteroid.Built env a → Asteroid.Built env { a with position := p }

/-- The piece counts with which this code calls `explode` on the asteroid: `update`
passes `pieces`, which is 3 or, for scale.y < 1/2, 0 (that is `pieceCount`), and
`onClick` passes 0. -/
def Asteroid.passesCount (self : Asteroid) (n : Int) : Prop :=
  n = self.pieceCount ∨ n = 0

/-! ## Sample inputs -/

/-- The zero vector. -/
def Vec3.zero : Vec3 := ⟨0, 0, 0⟩

/-- The vector with all components 1. -/
def Vec3.one : Vec3 := ⟨1, 1, 1⟩

/-- A sample environment: objects start at the origin with unit scale. -/
def sampleEnv : Env :=
  { objectInit := ⟨Vec3.zero, Vec3.zero, Vec3.one, ⟨Vec3.zero, Vec3.zero, Vec3.one⟩⟩
    explosionInit :=
      ⟨Vec3.zero, Vec3.zero, Vec3.one, ⟨Vec3.zero, Vec3.zero, Vec3.one⟩, Vec3.zero, 0⟩ }

/-- A sample random source: every draw is the middle of its interval. -/
def sampleRng : Rng :=
  { lin := fun _ => ⟨1 / 2, by norm_num, by norm_num⟩
    ball := fun _ => Vec3.zero }

/-- A sample asteroid at position `p` with scale `s`, age `age` and velocity `v`. -/
def sampleAsteroid (p s : Vec3) (age : ℚ) (v : Vec3) : Asteroid :=
  { position := p, rotation := Vec3.zero, scale := s, modelMatrix := ⟨p, Vec3.zero, s⟩
    age := age, speed := v, rotMomentum := Vec3.zero }

/-- A sample projectile at position `p` with scale `s`, not destroyed. -/
def sampleProjectile (p s : Vec3) : Projectile :=
  { position := p, rotation := Vec3.zero, scale := s, modelMatrix := ⟨p, Vec3.zero, s⟩
    destroyed := false }

/-- A sample asteroid: at the origin, unit scale, one second old, falling. -/
def rockA : Asteroid := sampleAsteroid Vec3.zero Vec3.one 1 ⟨0, -5, 0⟩

/-- A sample asteroid: one unit to the right of the origin, unit scale, at rest. -/
def rockB : Asteroid := sampleAsteroid ⟨1, 0, 0⟩ Vec3.one 1 Vec3.zero

/-- A sample asteroid too small to split: scale 2/5 on every axis. -/
def smallRock : Asteroid := sampleAsteroid Vec3.zero ⟨2 / 5, 2 / 5, 2 / 5⟩ 1 Vec3.zero

/-- A sample asteroid that has just been spawned: age 0, at the origin, at rest. -/
def youngRock : Asteroid := sampleAsteroid Vec3.zero Vec3.one 0 Vec3.zero

/-- A sample projectile half a unit above the origin. -/
def bullet : Projectile := sampleProjectile ⟨0, 1 / 2, 0⟩ Vec3.one

/-- A sample explosion at the origin with unit scale. -/
def blast : Explosion :=
  ⟨Vec3.zero, Vec3.zero, Vec3.one, ⟨Vec3.zero, Vec3.zero, Vec3.one⟩, Vec3.zero, 0⟩

/-- A sample asteroid far from the origin, unit scale, at rest. -/
def farRock : Asteroid := sampleAsteroid ⟨9, 9, 9⟩ Vec3.one 1 Vec3.zero

/-- A sample asteroid of the largest scale the constructor gives: scale 3 on every
axis, at the origin, at rest, one second old. -/
def bigRock : Asteroid := sampleAsteroid Vec3.zero ⟨3, 3, 3⟩ 1 Vec3.zero

/-- The sample scene in which the asteroid `a`, in slot 0, meets a projectile placed at
its own position. -/
def sampleHitScene (a : Asteroid) : Scene :=
  ⟨[Obj.asteroid a, Obj.projectile (sampleProjectile a.position Vec3.one)]⟩

/-- The first fragment that the update of `a` appends in the sample scene, with frame
time 0 and the sample random source. -/
def sampleChild (a : Asteroid) : Asteroid :=
  ((a.integrate 0).fragment sampleEnv 3 sampleRng).1

/-- The sample line of descent from bigRock: generation `n` is the sample child of
generation `n - 1`. -/
def sampleGen : Nat → Asteroid
  | 0 => bigRock
  | n + 1 => sampleChild (sampleGen n)

/-- A sample of float operations: the exact sum and product, the square root taken on
numerator and denominator (exact on squares) for the distance, and the binary32 value of
`0.7f`. -/
def sampleOps : FloatOps :=
  { add := fun a b => a + b
    mul := fun a b => a * b
    distance := fun p q => Rat.sqrt (Vec3.distSq p q)
    c07 := 11744051 / 16777216
    add_zero := fun a => add_zero a
    le_add := fun _ _ h => le_add_of_nonneg_right h }

@[simp]
theorem Vec3.add_def (a b : Vec3) : a + b = ⟨a.x + b.x, a.y + b.y, a.z + b.z⟩ := rfl

theorem Vec3.distSq_nonneg (a b : Vec3) : 0 ≤ Vec3.distSq a b := by
  unfold Vec3.distSq
  nlinarith [mul_self_nonneg (a.x - b.x), mul_self_nonneg (a.y - b.y),
    mul_self_nonneg (a.z - b.z)]

theorem Vec3.distSq_self (a : Vec3) : Vec3.distSq a a = 0 := by
  unfold Vec3.distSq; ring

/-- The test on squares is the test on the Euclidean distance. -/
theorem Vec3.distanceLt_iff_sqrt (a b : Vec3) (t : ℚ) :
    Vec3.distanceLt a b t ↔ Real.sqrt ((Vec3.distSq a b : ℚ) : ℝ) < (t : ℝ) := by
  unfold Vec3.distanceLt
  constructor
  · rintro ⟨ht, h⟩
    have ht' : (0 : ℝ) < t := by exact_mod_cast ht
    rw [Real.sqrt_lt' ht']
    have h2 : ((Vec3.distSq a b : ℚ) : ℝ) < ((t * t : ℚ) : ℝ) := by exact_mod_cast h
    push_cast at h2
    nlinarith
  · intro h
    have ht : (0 : ℝ) < t := lt_of_le_of_lt (Real.sqrt_nonneg _) h
    refine ⟨by exact_mod_cast ht, ?_⟩
    have h1 := (Real.sqrt_lt' ht).1 h
    have h2 : ((Vec3.distSq a b : ℚ) : ℝ) < ((t * t : ℚ) : ℝ) := by
      push_cast
      nlinarith
    exact_mod_cast h2

/-! ## Lemmas on explode -/

theorem Asteroid.spawnPieces_objects (self : Asteroid) (env : Env) (pieces : Int) (n : Nat)
    (scene : Scene) (rng : Rng) :
    (self.spawnPieces env pieces n scene rng).1.objects =
      scene.objects ++ (self.fragmentsFrom env pieces n rng).map Obj.asteroid := by
  induction n generalizing scene rng with
  | zero => simp [Asteroid.spawnPieces, Asteroid.fragmentsFrom]
  | succ n ih =>
    simp only [Asteroid.spawnPieces, Asteroid.fragmentsFrom, ih, Scene.pushBack, List.map_cons,
      List.append_assoc, List.singleton_append]

theorem Asteroid.explode_objects (self : Asteroid) (env : Env) (scene : Scene) (c s : Vec3)
    (pieces : Int) (rng : Rng) :
    (self.explode env scene c s pieces rng).1.objects =
      scene.objects ++ Obj.explosion (self.explosionAt env c s) ::
        (self.fragmentsFrom env pieces pieces.toNat rng).map Obj.asteroid := by
  simp only [Asteroid.explode, Asteroid.spawnPieces_objects, Scene.pushBack,
    Asteroid.explosionAt, List.append_assoc, List.singleton_append]

theorem Asteroid.fragmentsFrom_length (self : Asteroid) (env : Env) (pieces : Int) (n : Nat)
    (rng : Rng) : (self.fragmentsFrom env pieces n rng).length = n := by
  induction n generalizing rng with
  | zero => rfl
  | succ n ih => simp [Asteroid.fragmentsFrom, ih]

theorem Asteroid.fragment_scale (self : Asteroid) (env : Env) (pieces : Int) (rng : Rng) :
    (self.fragment env pieces rng).1.scale = self.scale.sdiv ((pieces : ℚ) / 2) := rfl

theorem Asteroid.fragmentsFrom_scale (self : Asteroid) (env : Env) (pieces : Int) (n : Nat)
    (rng : Rng) (a : Asteroid) (ha : a ∈ self.fragmentsFrom env pieces n rng) :
    a.scale = self.scale.sdiv ((pieces : ℚ) / 2) := by
  induction n generalizing rng with
  | zero => simp [Asteroid.fragmentsFrom] at ha
  | succ n ih =>
    simp only [Asteroid.fragmentsFrom, List.mem_cons] at ha
    rcases ha with rfl | ha
    · exact Asteroid.fragment_scale self env pieces rng
    · exact ih _ ha

/-! ## Lemmas on the collision scan -/

theorem Scene.marked_length (scene : Scene) (i : Nat) (obj : Obj) :
    (scene.marked i obj).objects.length = scene.objects.length := by
  unfold Scene.marked
  cases obj.asProjectile <;> simp [Scene.destroyAt]

theorem Asteroid.collideFrom_none (self : Asteroid) (selfIdx : Nat) (env : Env)
    (scene : Scene) (rng : Rng) (i : Nat) (rest : List Obj)
    (h : ∀ k o, rest[k]? = some o → i + k = selfIdx ∨ ¬ self.hits o) :
    self.collideFrom selfIdx env scene rng i rest = none := by
  induction rest generalizing i with
  | nil => rfl
  | cons obj rest ih =>
    have hrest : self.collideFrom selfIdx env scene rng (i + 1) rest = none := by
      apply ih
      intro k o hk
      have := h (k + 1) o (by simpa using hk)
      rwa [show i + 1 + k = i + (k + 1) by omega]
    have h0 := h 0 obj (by simp)
    unfold Asteroid.collideFrom
    by_cases hi : i = selfIdx
    · simp [hi] at hrest ⊢
      exact hrest
    · have hh : ¬ self.hits obj := by
        rcases h0 with h0 | h0
        · exact absurd h0 hi
        · exact h0
      simp only [hi, if_false]
      unfold Asteroid.hits at hh
      by_cases h1 : obj.asAsteroid.isNone ∧ obj.asProjectile.isNone
      · simp only [h1, and_self, if_true]; exact hrest
      · by_cases h2 : obj.asAsteroid.isSome ∧ self.age < 1 / 2
        · simp only [h1, h2, and_self, if_true, if_false]; exact hrest
        · have h3 : ¬ Vec3.distanceLt self.position obj.position
              ((obj.scale.y + self.scale.y) * (7 / 10)) := fun h3 => hh ⟨h1, h2, h3⟩
          simp only [h1, h2, h3, if_false]; exact hrest

theorem Asteroid.collideFrom_first (self : Asteroid) (selfIdx : Nat) (env : Env)
    (scene : Scene) (rng : Rng) (i : Nat) (pre : List Obj) (obj : Obj) (post : List Obj)
    (hpre : ∀ k o, pre[k]? = some o → i + k = selfIdx ∨ ¬ self.hits o)
    (hidx : i + pre.length ≠ selfIdx) (hhit : self.hits obj) :
    self.collideFrom selfIdx env scene rng i (pre ++ obj :: post) =
      some (self.explode env (scene.marked (i + pre.length) obj)
        ((obj.position + self.position).sdiv 2) ((obj.scale + self.scale).sdiv 2)
        self.pieceCount rng) := by
  induction pre generalizing i with
  | nil =>
    have hi : i ≠ selfIdx := by simpa using hidx
    obtain ⟨h1, h2, h3⟩ := hhit
    simp only [List.nil_append, List.length_nil, Nat.add_zero]
    unfold Asteroid.collideFrom
    simp only [hi, h1, h2, h3, if_false, if_true]
    rfl
  | cons o pre ih =>
    have hrest := ih (i + 1)
      (by
        intro k o' hk
        have := hpre (k + 1) o' (by simpa using hk)
        rwa [show i + 1 + k = i + (k + 1) by omega])
      (by simpa [Nat.add_assoc, Nat.add_comm 1] using hidx)
    have h0 := hpre 0 o (by simp)
    have hlen : i + (o :: pre).length = i + 1 + pre.length := by simp; omega
    rw [hlen, ← hrest]
    simp only [List.cons_append]
    conv_lhs => unfold Asteroid.collideFrom
    by_cases hi : i = selfIdx
    · simp [hi]
    · have hh : ¬ self.hits o := by
        rcases h0 with h0 | h0
        · exact absurd h0 hi
        · exact h0
      simp only [hi, if_false]
      unfold Asteroid.hits at hh
      by_cases h1 : o.asAsteroid.isNone ∧ o.asProjectile.isNone
      · simp only [h1, and_self, if_true]
      · by_cases h2 : o.asAsteroid.isSome ∧ self.age < 1 / 2
        · simp only [h1, h2, and_self, if_true, if_false]
        · have h3 : ¬ Vec3.distanceLt self.position o.position
              ((o.scale.y + self.scale.y) * (7 / 10)) := fun h3 => hh ⟨h1, h2, h3⟩
          simp only [h1, h2, h3, if_false]

theorem List.split_at_getElem? {α : Type} (l : List α) (j : Nat) (x : α)
    (h : l[j]? = some x) : l = l.take j ++ x :: l.drop (j + 1) ∧ (l.take j).length = j := by
  obtain ⟨hj, hx⟩ := List.getElem?_eq_some.1 h
  refine ⟨?_, by simp; omega⟩
  rw [← hx, ← List.drop_eq_getElem_cons hj, List.take_append_drop]

/-! ## The three outcomes of update -/

theorem Asteroid.update_of_expired (self : Asteroid) (selfIdx : Nat) (env : Env)
    (scene : Scene) (dt : ℚ) (rng : Rng) (h : (self.integrate dt).expired) :
    self.update selfIdx env scene dt rng = ⟨false, self.integrate dt, scene, rng⟩ := by
  simp only [Asteroid.update, h, if_true]

theorem Asteroid.update_of_firstHit (self : Asteroid) (selfIdx : Nat) (env : Env)
    (scene : Scene) (dt : ℚ) (rng : Rng) (j : Nat) (obj : Obj)
    (hne : ¬ (self.integrate dt).expired)
    (hfirst : (self.integrate dt).firstHitAt selfIdx scene j obj) :
    self.update selfIdx env scene dt rng =
      ⟨false, self.integrate dt,
        ((self.integrate dt).explode env (scene.marked j obj)
          ((obj.position + (self.integrate dt).position).sdiv 2)
          ((obj.scale + (self.integrate dt).scale).sdiv 2)
          (self.integrate dt).pieceCount rng).1,
        ((self.integrate dt).explode env (scene.marked j obj)
          ((obj.position + (self.integrate dt).position).sdiv 2)
          ((obj.scale + (self.integrate dt).scale).sdiv 2)
          (self.integrate dt).pieceCount rng).2⟩ := by
  obtain ⟨hj, hjs, hhit, hmin⟩ := hfirst
  obtain ⟨hsplit, hlen⟩ := List.split_at_getElem? scene.objects j obj hj
  have hscan := Asteroid.collideFrom_first (self.integrate dt) selfIdx env scene rng 0
    (scene.objects.take j) obj (scene.objects.drop (j + 1))
    (by
      intro k o hk
      have hkj : k < j := by
        have := (List.getElem?_eq_some.1 hk).1
        simpa [hlen] using (lt_of_lt_of_le this (le_of_eq hlen))
      have hk' : scene.objects[k]? = some o := by
        rw [List.getElem?_take_of_lt hkj] at hk
        exact hk
      simpa using hmin k o hkj hk')
    (by simpa [hlen] using hjs) hhit
  rw [← hsplit, hlen, Nat.zero_add] at hscan
  simp only [Asteroid.update, hne, if_false, hscan]

theorem Asteroid.update_of_not_collides (self : Asteroid) (selfIdx : Nat) (env : Env)
    (scene : Scene) (dt : ℚ) (rng : Rng)
    (hne : ¬ (self.integrate dt).expired)
    (hno : ¬ (self.integrate dt).collides selfIdx scene) :
    self.update selfIdx env scene dt rng =
      ⟨true, (self.integrate dt).generateModelMatrix, scene, rng⟩ := by
  have hscan := Asteroid.collideFrom_none (self.integrate dt) selfIdx env scene rng 0
    scene.objects
    (by
      intro k o hk
      by_cases hks : k = selfIdx
      · left; omega
      · right
        intro hhit
        exact hno ⟨k, o, hk, hks, hhit⟩)
  simp only [Asteroid.update, hne, if_false, hscan]

theorem Asteroid.exists_firstHit (self : Asteroid) (selfIdx : Nat) (scene : Scene)
    (h : self.collides selfIdx scene) : ∃ j obj, self.firstHitAt selfIdx scene j obj := by
  classical
  have hex : ∃ j, ∃ obj, scene.objects[j]? = some obj ∧ j ≠ selfIdx ∧ self.hits obj := h
  obtain ⟨obj, hj, hjs, hhit⟩ := Nat.find_spec hex
  refine ⟨Nat.find hex, obj, hj, hjs, hhit, ?_⟩
  intro k o hk hko
  by_cases hks : k = selfIdx
  · exact Or.inl hks
  · right
    intro hh
    exact Nat.find_min hex hk ⟨o, hko, hks, hh⟩

theorem Asteroid.firstHitAt_collides (self : Asteroid) (selfIdx : Nat) (scene : Scene)
    (j : Nat) (obj : Obj) (h : self.firstHitAt selfIdx scene j obj) :
    self.collides selfIdx scene :=
  ⟨j, obj, h.1, h.2.1, h.2.2.1⟩

/-! ## Expiry -/

theorem Asteroid.integrate_age (self : Asteroid) (dt : ℚ) :
    (self.integrate dt).age = self.age + dt := rfl

theorem Asteroid.integrate_position_y (self : Asteroid) (dt : ℚ) :
    (self.integrate dt).position.y = self.position.y + self.speed.y * dt := rfl

theorem Asteroid.integrate_scale (self : Asteroid) (dt : ℚ) :
    (self.integrate dt).scale = self.scale := rfl

/-- An asteroid that is below the lower bound and does not move upwards is still below
it after integration. -/
theorem Asteroid.integrate_below (self : Asteroid) (dt : ℚ) (hdt : 0 ≤ dt)
    (hy : self.position.y < -10) (hv : self.speed.y ≤ 0) :
    self.position.y + self.speed.y * dt < -10 := by
  nlinarith [mul_nonneg (neg_nonneg.2 hv) hdt]

theorem Asteroid.update_speed_eq (self : Asteroid) (selfIdx : Nat) (env : Env)
    (scene : Scene) (dt : ℚ) (rng : Rng) :
    (self.update selfIdx env scene dt rng).asteroid.speed = self.speed := by
  unfold Asteroid.update
  simp only
  split
  · rfl
  · split <;> rfl

/-- The constructor gives a vertical speed in [-10, -5]. -/
theorem Asteroid.new_speed_y (env : Env) (rng : Rng) :
    -10 ≤ (Asteroid.new env rng).1.speed.y ∧ (Asteroid.new env rng).1.speed.y ≤ -5 := by
  have h : (Asteroid.new env rng).1.speed.y = (rng.lin 2).val * (-10 - -5) + -5 := rfl
  rw [h]
  have h0 := (rng.lin 2).nonneg
  have h1 := (rng.lin 2).le_one
  constructor <;> linarith

/-- A fragment does not fall more slowly than the asteroid it comes from. -/
theorem Asteroid.fragment_speed_y (self : Asteroid) (env : Env) (pieces : Int) (rng : Rng) :
    (self.fragment env pieces rng).1.speed.y ≤ self.speed.y := by
  have h : (self.fragment env pieces rng).1.speed.y =
      self.speed.y + ((rng.lin 4).val * (-5 - 0) + 0) := rfl
  rw [h]
  have h0 := (rng.lin 4).nonneg
  linarith

/-- The velocity is written only by the constructor and by explode: every asteroid the
code can hold falls, with speed.y <= -5. -/
theorem Asteroid.Built.speed_y_le (env : Env) (a : Asteroid) (h : Asteroid.Built env a) :
    a.speed.y ≤ -5 := by
  induction h with
  | constructed rng => exact (Asteroid.new_speed_y env rng).2
  | fragment parent pieces rng _ ih =>
    exact le_trans (Asteroid.fragment_speed_y parent env pieces rng) ih
  | updated a selfIdx scene dt rng _ ih =>
    rw [Asteroid.update_speed_eq]
    exact ih
  | clicked a scene rng _ ih => exact ih
  | placed a p _ ih => exact ih

/-- C1: an asteroid whose age is above 10 or whose position.y is below -10 when update
is called makes update return false, for every scene (whatever is within the proximity
threshold), every slot and every dt >= 0, without a collision scan: the scene is
returned as it was (nothing appended, no projectile marked) and no random number is
drawn. The asteroid is any that does not move upwards (speed.y <= 0), as is every
asteroid the code can hold: the velocity is written only by the constructor and by
explode, which give speed.y <= -5 (Asteroid.Built.speed_y_le). -/
theorem update_expiry (self : Asteroid) (selfIdx : Nat) (env : Env) (scene : Scene)
    (dt : ℚ) (rng : Rng) (hdt : 0 ≤ dt) (hspeed : self.speed.y ≤ 0)
    (h : 10 < self.age ∨ self.position.y < -10) :
    (self.update selfIdx env scene dt rng).alive = false ∧
      (self.update selfIdx env scene dt rng).scene = scene ∧
      (self.update selfIdx env scene dt rng).rng = rng := by
  have hexp : (self.integrate dt).expired := by
    unfold Asteroid.expired
    rcases h with h | h
    · left
      rw [Asteroid.integrate_age]
      linarith
    · right
      rw [Asteroid.integrate_position_y]
      exact Asteroid.integrate_below self dt hdt h hspeed
  rw [Asteroid.update_of_expired self selfIdx env scene dt rng hexp]
  exact ⟨rfl, rfl, rfl⟩

/-- Witness of C1: an asteroid at position.y = -11, falling, one second old, with another
asteroid at the same place in slot 1. -/
theorem update_expiry_witness :
    ((sampleAsteroid ⟨0, -11, 0⟩ Vec3.one 1 ⟨0, -5, 0⟩).update 0 sampleEnv
        ⟨[Obj.asteroid (sampleAsteroid ⟨0, -11, 0⟩ Vec3.one 1 ⟨0, -5, 0⟩),
          Obj.asteroid (sampleAsteroid ⟨0, -11, 0⟩ Vec3.one 1 Vec3.zero)]⟩ (1 / 10)
        sampleRng).alive = false ∧
      ((sampleAsteroid ⟨0, -11, 0⟩ Vec3.one 1 ⟨0, -5, 0⟩).update 0 sampleEnv
        ⟨[Obj.asteroid (sampleAsteroid ⟨0, -11, 0⟩ Vec3.one 1 ⟨0, -5, 0⟩),
          Obj.asteroid (sampleAsteroid ⟨0, -11, 0⟩ Vec3.one 1 Vec3.zero)]⟩ (1 / 10)
        sampleRng).scene =
        ⟨[Obj.asteroid (sampleAsteroid ⟨0, -11, 0⟩ Vec3.one 1 ⟨0, -5, 0⟩),
          Obj.asteroid (sampleAsteroid ⟨0, -11, 0⟩ Vec3.one 1 Vec3.zero)]⟩ ∧
      ((sampleAsteroid ⟨0, -11, 0⟩ Vec3.one 1 ⟨0, -5, 0⟩).update 0 sampleEnv
        ⟨[Obj.asteroid (sampleAsteroid ⟨0, -11, 0⟩ Vec3.one 1 ⟨0, -5, 0⟩),
          Obj.asteroid (sampleAsteroid ⟨0, -11, 0⟩ Vec3.one 1 Vec3.zero)]⟩ (1 / 10)
        sampleRng).rng = sampleRng :=
  update_expiry _ 0 sampleEnv _ (1 / 10) sampleRng (by norm_num)
    (by norm_num [sampleAsteroid])
    (Or.inr (by norm_num [sampleAsteroid]))

/-! ## Collision with fragmentation -/

theorem Scene.added_of_append (before after : Scene) (l extra : List Obj)
    (h : after.objects = l ++ extra) (hl : l.length = before.objects.length) :
    Scene.added before after = extra := by
  unfold Scene.added
  rw [h, ← hl, List.drop_left]

theorem Obj.filter_isExplosion_asteroids (l : List Asteroid) :
    (l.map Obj.asteroid).filter Obj.isExplosion = [] := by
  induction l with
  | nil => rfl
  | cons a l ih => simp [List.filter, Obj.isExplosion, ih]

theorem Obj.filter_isAsteroid_asteroids (l : List Asteroid) :
    (l.map Obj.asteroid).filter Obj.isAsteroid = l.map Obj.asteroid := by
  induction l with
  | nil => rfl
  | cons a l ih => simp [List.filter, Obj.isAsteroid, ih]

/-- What a colliding update leaves, in terms of the first candidate that passes the
tests: the old objects, with the candidate marked when it is a projectile, followed by
one explosion and the fragments. -/
theorem Asteroid.update_firstHit_objects (self : Asteroid) (selfIdx : Nat) (env : Env)
    (scene : Scene) (dt : ℚ) (rng : Rng) (j : Nat) (obj : Obj)
    (hne : ¬ (self.integrate dt).expired)
    (hfirst : (self.integrate dt).firstHitAt selfIdx scene j obj) :
    (self.update selfIdx env scene dt rng).alive = false ∧
      (self.update selfIdx env scene dt rng).scene.objects =
        (scene.marked j obj).objects ++
          Obj.explosion ((self.integrate dt).explosionAt env
            ((obj.position + (self.integrate dt).position).sdiv 2)
            ((obj.scale + (self.integrate dt).scale).sdiv 2)) ::
          ((self.integrate dt).fragmentsFrom env (self.integrate dt).pieceCount
            (self.integrate dt).pieceCount.toNat rng).map Obj.asteroid := by
  rw [Asteroid.update_of_firstHit self selfIdx env scene dt rng j obj hne hfirst]
  exact ⟨rfl, Asteroid.explode_objects _ _ _ _ _ _ _⟩

/-- The objects appended by a colliding update: one explosion, then the fragments. -/
theorem Asteroid.update_collides_added (self : Asteroid) (selfIdx : Nat) (env : Env)
    (scene : Scene) (dt : ℚ) (rng : Rng)
    (hne : ¬ (self.integrate dt).expired)
    (hcol : (self.integrate dt).collides selfIdx scene) :
    (self.update selfIdx env scene dt rng).alive = false ∧
      (self.update selfIdx env scene dt rng).scene.objects.length =
        scene.objects.length + (1 + (self.integrate dt).pieceCount.toNat) ∧
      ∃ e : Explosion, Scene.added scene (self.update selfIdx env scene dt rng).scene =
        Obj.explosion e ::
          ((self.integrate dt).fragmentsFrom env (self.integrate dt).pieceCount
            (self.integrate dt).pieceCount.toNat rng).map Obj.asteroid := by
  obtain ⟨j, obj, hfirst⟩ := Asteroid.exists_firstHit _ selfIdx scene hcol
  obtain ⟨halive, hobjs⟩ :=
    Asteroid.update_firstHit_objects self selfIdx env scene dt rng j obj hne hfirst
  refine ⟨halive, ?_, _, Scene.added_of_append scene _ _ _ hobjs (Scene.marked_length _ _ _)⟩
  rw [hobjs]
  simp only [List.length_append, List.length_cons, List.length_map, Scene.marked_length,
    Asteroid.fragmentsFrom_length]
  omega

theorem Asteroid.pieceCount_small (self : Asteroid) (h : self.scale.y < 1 / 2) :
    self.pieceCount = 0 := by
  unfold Asteroid.pieceCount
  rw [if_pos h]

theorem Asteroid.pieceCount_large (self : Asteroid) (h : 1 / 2 ≤ self.scale.y) :
    self.pieceCount = 3 := by
  unfold Asteroid.pieceCount
  rw [if_neg (not_lt.2 h)]

/-- C2: on a frame on which asteroid A does not expire, if another asteroid B of the
scene is closer to A than 0.7 * (A.scale.y + B.scale.y) and both are at least half a
second old, the update of A returns false and appends exactly one Explosion. Position
and age of A are those after the integration of this frame, which the scan reads. -/
theorem update_asteroid_collision (self : Asteroid) (selfIdx : Nat) (env : Env)
    (scene : Scene) (dt : ℚ) (rng : Rng) (j : Nat) (b : Asteroid)
    (hne : ¬ (self.integrate dt).expired)
    (hj : scene.objects[j]? = some (Obj.asteroid b)) (hjs : j ≠ selfIdx)
    (hdist : Vec3.distanceLt (self.integrate dt).position b.position
      (7 / 10 * (self.scale.y + b.scale.y)))
    (hageA : 1 / 2 ≤ (self.integrate dt).age) (_hageB : 1 / 2 ≤ b.age) :
    (self.update selfIdx env scene dt rng).alive = false ∧
      scene.objects.length ≤ (self.update selfIdx env scene dt rng).scene.objects.length ∧
      ((Scene.added scene (self.update selfIdx env scene dt rng).scene).filter
        Obj.isExplosion).length = 1 := by
  have hhit : (self.integrate dt).hits (Obj.asteroid b) := by
    refine ⟨by simp [Obj.asAsteroid], ?_, ?_⟩
    · rintro ⟨-, h⟩
      exact absurd h (not_lt.2 hageA)
    · have : (b.scale.y + self.scale.y) * (7 / 10) = 7 / 10 * (self.scale.y + b.scale.y) := by
        ring
      simpa [Obj.position, Obj.scale, Asteroid.integrate_scale, this] using hdist
  obtain ⟨halive, hlen, e, hadded⟩ :=
    Asteroid.update_collides_added self selfIdx env scene dt rng hne ⟨j, _, hj, hjs, hhit⟩
  refine ⟨halive, by omega, ?_⟩
  rw [hadded]
  simp [List.filter, Obj.isExplosion, Obj.filter_isExplosion_asteroids]

/-- Witness of C2: rockA in slot 0 and rockB, one unit away, in slot 1. -/
theorem update_asteroid_collision_witness :
    (rockA.update 0 sampleEnv ⟨[Obj.asteroid rockA, Obj.asteroid rockB]⟩ (1 / 10)
        sampleRng).alive = false ∧
      (2 : Nat) ≤ (rockA.update 0 sampleEnv ⟨[Obj.asteroid rockA, Obj.asteroid rockB]⟩
        (1 / 10) sampleRng).scene.objects.length ∧
      ((Scene.added ⟨[Obj.asteroid rockA, Obj.asteroid rockB]⟩
        (rockA.update 0 sampleEnv ⟨[Obj.asteroid rockA, Obj.asteroid rockB]⟩ (1 / 10)
          sampleRng).scene).filter Obj.isExplosion).length = 1 :=
  update_asteroid_collision rockA 0 sampleEnv ⟨[Obj.asteroid rockA, Obj.asteroid rockB]⟩
    (1 / 10) sampleRng 1 rockB
    (by norm_num [Asteroid.expired, Asteroid.integrate, rockA, sampleAsteroid, Vec3.smul,
      Vec3.zero])
    rfl (by decide)
    (by norm_num [Vec3.distanceLt, Vec3.distSq, Asteroid.integrate, rockA, rockB,
      sampleAsteroid, Vec3.smul, Vec3.zero, Vec3.one])
    (by norm_num [Asteroid.integrate, rockA, sampleAsteroid])
    (by norm_num [rockB, sampleAsteroid])

theorem Asteroid.fragmentsFrom_three (self : Asteroid) (env : Env) (rng : Rng) :
    ∃ a1 a2 a3 : Asteroid, self.fragmentsFrom env 3 3 rng = [a1, a2, a3] ∧
      a1.scale = self.scale.sdiv (3 / 2) ∧ a2.scale = self.scale.sdiv (3 / 2) ∧
      a3.scale = self.scale.sdiv (3 / 2) := by
  have hs : ∀ a ∈ self.fragmentsFrom env 3 3 rng, a.scale = self.scale.sdiv (3 / 2) := by
    intro a ha
    have := Asteroid.fragmentsFrom_scale self env 3 3 rng a ha
    simpa using this
  refine ⟨_, _, _, rfl, hs _ ?_, hs _ ?_, hs _ ?_⟩ <;> simp [Asteroid.fragmentsFrom]

/-- C3: a colliding update of an asteroid with scale.y >= 0.5 appends exactly four
objects, one Explosion followed by three new Asteroids, and each of the three has the
parent's scale divided by 1.5 on every axis. -/
theorem update_large_fragmentation (self : Asteroid) (selfIdx : Nat) (env : Env)
    (scene : Scene) (dt : ℚ) (rng : Rng)
    (hne : ¬ (self.integrate dt).expired)
    (hcol : (self.integrate dt).collides selfIdx scene)
    (hbig : 1 / 2 ≤ self.scale.y) :
    (self.update selfIdx env scene dt rng).scene.objects.length = scene.objects.length + 4 ∧
      ∃ (e : Explosion) (a1 a2 a3 : Asteroid),
        Scene.added scene (self.update selfIdx env scene dt rng).scene =
          [Obj.explosion e, Obj.asteroid a1, Obj.asteroid a2, Obj.asteroid a3] ∧
        a1.scale = ⟨self.scale.x / (3 / 2), self.scale.y / (3 / 2), self.scale.z / (3 / 2)⟩ ∧
        a2.scale = ⟨self.scale.x / (3 / 2), self.scale.y / (3 / 2), self.scale.z / (3 / 2)⟩ ∧
        a3.scale = ⟨self.scale.x / (3 / 2), self.scale.y / (3 / 2), self.scale.z / (3 / 2)⟩ := by
  obtain ⟨-, hlen, e, hadded⟩ :=
    Asteroid.update_collides_added self selfIdx env scene dt rng hne hcol
  have hpc : (self.integrate dt).pieceCount = 3 := Asteroid.pieceCount_large _ hbig
  rw [hpc] at hlen hadded
  obtain ⟨a1, a2, a3, hfr, h1, h2, h3⟩ :=
    Asteroid.fragmentsFrom_three (self.integrate dt) env rng
  refine ⟨by simpa using hlen, e, a1, a2, a3, ?_, h1, h2, h3⟩
  rw [hadded]
  have h3nat : (3 : Int).toNat = 3 := rfl
  rw [h3nat, hfr]
  rfl

/-- C4: a colliding update of an asteroid with scale.y < 0.5 returns false and appends
exactly one object, an Explosion, and no Asteroid. -/
theorem update_small_fragmentation (self : Asteroid) (selfIdx : Nat) (env : Env)
    (scene : Scene) (dt : ℚ) (rng : Rng)
    (hne : ¬ (self.integrate dt).expired)
    (hcol : (self.integrate dt).collides selfIdx scene)
    (hsmall : self.scale.y < 1 / 2) :
    (self.update selfIdx env scene dt rng).alive = false ∧
      (self.update selfIdx env scene dt rng).scene.objects.length =
        scene.objects.length + 1 ∧
      ∃ e : Explosion,
        Scene.added scene (self.update selfIdx env scene dt rng).scene = [Obj.explosion e] := by
  obtain ⟨halive, hlen, e, hadded⟩ :=
    Asteroid.update_collides_added self selfIdx env scene dt rng hne hcol
  have hpc : (self.integrate dt).pieceCount = 0 := Asteroid.pieceCount_small _ hsmall
  rw [hpc] at hlen hadded
  refine ⟨halive, by simpa using hlen, e, ?_⟩
  rw [hadded]
  rfl

/-- C5: when the first candidate that passes the tests is a Projectile, update returns
false and leaves that projectile marked destroyed in its slot, and every other slot of
the scene holds what it held before the call. -/
theorem update_projectile_destroyed (self : Asteroid) (selfIdx : Nat) (env : Env)
    (scene : Scene) (dt : ℚ) (rng : Rng) (j : Nat) (p : Projectile)
    (hne : ¬ (self.integrate dt).expired)
    (hfirst : (self.integrate dt).firstHitAt selfIdx scene j (Obj.projectile p)) :
    (self.update selfIdx env scene dt rng).alive = false ∧
      (self.update selfIdx env scene dt rng).scene.objects[j]? =
        some (Obj.projectile p.destroy) ∧
      p.destroy.destroyed = true ∧
      ∀ k, k < scene.objects.length → k ≠ j →
        (self.update selfIdx env scene dt rng).scene.objects[k]? = scene.objects[k]? := by
  obtain ⟨halive, hobjs⟩ :=
    Asteroid.update_firstHit_objects self selfIdx env scene dt rng j _ hne hfirst
  have hjlt : j < scene.objects.length := (List.getElem?_eq_some.1 hfirst.1).1
  have hmark : (scene.marked j (Obj.projectile p)).objects =
      scene.objects.set j (Obj.projectile p.destroy) := rfl
  rw [hmark] at hobjs
  refine ⟨halive, ?_, rfl, ?_⟩
  · rw [hobjs, List.getElem?_append_left (by simpa using hjlt)]
    simp [List.getElem?_set, hjlt]
  · intro k hk hkj
    rw [hobjs, List.getElem?_append_left (by simpa using hk)]
    simp [List.getElem?_set, Ne.symm hkj]

/-- On the sample frame rockA, after a tenth of a second, is not expired. -/
theorem rockA_not_expired : ¬ (rockA.integrate (1 / 10)).expired := by
  norm_num [Asteroid.expired, Asteroid.integrate, rockA, sampleAsteroid, Vec3.smul,
    Vec3.zero]

/-- On the sample frame rockA passes the tests against rockB. -/
theorem rockA_hits_rockB : (rockA.integrate (1 / 10)).hits (Obj.asteroid rockB) := by
  norm_num [Asteroid.hits, Obj.asAsteroid, Obj.asProjectile, Obj.position, Obj.scale,
    Vec3.distanceLt, Vec3.distSq, Asteroid.integrate, rockA, rockB, sampleAsteroid,
    Vec3.smul, Vec3.zero, Vec3.one]

/-- On the sample frame rockA passes the tests against the bullet. -/
theorem rockA_hits_bullet : (rockA.integrate (1 / 10)).hits (Obj.projectile bullet) := by
  norm_num [Asteroid.hits, Obj.asAsteroid, Obj.asProjectile, Obj.position, Obj.scale,
    Vec3.distanceLt, Vec3.distSq, Asteroid.integrate, rockA, bullet, sampleAsteroid,
    sampleProjectile, Vec3.smul, Vec3.zero, Vec3.one]

/-- The small sample asteroid, at rest, is not expired and passes the tests against the
bullet. -/
theorem smallRock_hits_bullet :
    ¬ (smallRock.integrate (1 / 10)).expired ∧
      (smallRock.integrate (1 / 10)).hits (Obj.projectile bullet) := by
  constructor
  · norm_num [Asteroid.expired, Asteroid.integrate, smallRock, sampleAsteroid, Vec3.smul,
      Vec3.zero]
  · norm_num [Asteroid.hits, Obj.asAsteroid, Obj.asProjectile, Obj.position, Obj.scale,
      Vec3.distanceLt, Vec3.distSq, Asteroid.integrate, smallRock, bullet, sampleAsteroid,
      sampleProjectile, Vec3.smul, Vec3.zero, Vec3.one]

/-- Witness of C3: rockA (scale 1) in slot 0 collides with rockB in slot 1. -/
theorem update_large_fragmentation_witness :
    (rockA.update 0 sampleEnv ⟨[Obj.asteroid rockA, Obj.asteroid rockB]⟩ (1 / 10)
        sampleRng).scene.objects.length = 2 + 4 ∧
      ∃ (e : Explosion) (a1 a2 a3 : Asteroid),
        Scene.added ⟨[Obj.asteroid rockA, Obj.asteroid rockB]⟩
            (rockA.update 0 sampleEnv ⟨[Obj.asteroid rockA, Obj.asteroid rockB]⟩ (1 / 10)
              sampleRng).scene =
          [Obj.explosion e, Obj.asteroid a1, Obj.asteroid a2, Obj.asteroid a3] ∧
        a1.scale = ⟨rockA.scale.x / (3 / 2), rockA.scale.y / (3 / 2),
          rockA.scale.z / (3 / 2)⟩ ∧
        a2.scale = ⟨rockA.scale.x / (3 / 2), rockA.scale.y / (3 / 2),
          rockA.scale.z / (3 / 2)⟩ ∧
        a3.scale = ⟨rockA.scale.x / (3 / 2), rockA.scale.y / (3 / 2),
          rockA.scale.z / (3 / 2)⟩ :=
  update_large_fragmentation rockA 0 sampleEnv ⟨[Obj.asteroid rockA, Obj.asteroid rockB]⟩
    (1 / 10) sampleRng rockA_not_expired
    ⟨1, Obj.asteroid rockB, rfl, by decide, rockA_hits_rockB⟩
    (by norm_num [rockA, sampleAsteroid, Vec3.one])

/-- Witness of C4: smallRock (scale 2/5) in slot 0 collides with the bullet in slot 1. -/
theorem update_small_fragmentation_witness :
    (smallRock.update 0 sampleEnv ⟨[Obj.asteroid smallRock, Obj.projectile bullet]⟩
        (1 / 10) sampleRng).alive = false ∧
      (smallRock.update 0 sampleEnv ⟨[Obj.asteroid smallRock, Obj.projectile bullet]⟩
        (1 / 10) sampleRng).scene.objects.length = 2 + 1 ∧
      ∃ e : Explosion,
        Scene.added ⟨[Obj.asteroid smallRock, Obj.projectile bullet]⟩
          (smallRock.update 0 sampleEnv ⟨[Obj.asteroid smallRock, Obj.projectile bullet]⟩
            (1 / 10) sampleRng).scene = [Obj.explosion e] :=
  update_small_fragmentation smallRock 0 sampleEnv
    ⟨[Obj.asteroid smallRock, Obj.projectile bullet]⟩ (1 / 10) sampleRng
    smallRock_hits_bullet.1
    ⟨1, Obj.projectile bullet, rfl, by decide, smallRock_hits_bullet.2⟩
    (by norm_num [smallRock, sampleAsteroid])

/-- Witness of C5: rockA in slot 0, the bullet in slot 1 and a second bullet, out of
reach, in slot 2; only the first bullet is marked. -/
theorem update_projectile_destroyed_witness :
    (rockA.update 0 sampleEnv
        ⟨[Obj.asteroid rockA, Obj.projectile bullet,
          Obj.projectile (sampleProjectile ⟨9, 9, 9⟩ Vec3.one)]⟩ (1 / 10)
        sampleRng).alive = false ∧
      (rockA.update 0 sampleEnv
        ⟨[Obj.asteroid rockA, Obj.projectile bullet,
          Obj.projectile (sampleProjectile ⟨9, 9, 9⟩ Vec3.one)]⟩ (1 / 10)
        sampleRng).scene.objects[1]? = some (Obj.projectile bullet.destroy) ∧
      bullet.destroy.destroyed = true ∧
      ∀ k, k < 3 → k ≠ 1 →
        (rockA.update 0 sampleEnv
          ⟨[Obj.asteroid rockA, Obj.projectile bullet,
            Obj.projectile (sampleProjectile ⟨9, 9, 9⟩ Vec3.one)]⟩ (1 / 10)
          sampleRng).scene.objects[k]? =
        [Obj.asteroid rockA, Obj.projectile bullet,
          Obj.projectile (sampleProjectile ⟨9, 9, 9⟩ Vec3.one)][k]? :=
  update_projectile_destroyed rockA 0 sampleEnv
    ⟨[Obj.asteroid rockA, Obj.projectile bullet,
      Obj.projectile (sampleProjectile ⟨9, 9, 9⟩ Vec3.one)]⟩ (1 / 10) sampleRng 1 bullet
    rockA_not_expired
    ⟨rfl, by decide, rockA_hits_bullet, fun k _ hk _ => Or.inl (by omega)⟩

/-! ## onClick -/

/-- C6: onClick appends exactly one object, an Explosion of scale (10,10,10) at the
asteroid's position, and no Asteroid; it leaves the asteroid's age at 10000, so that the
next update, for any slot, scene and dt >= 0, returns false and leaves the scene as it
was. -/
theorem onClick_effect (self : Asteroid) (env : Env) (scene : Scene) (rng : Rng)
    (selfIdx : Nat) (env2 : Env) (scene2 : Scene) (dt : ℚ) (rng2 : Rng) (hdt : 0 ≤ dt) :
    (∃ e : Explosion,
        (self.onClick env scene rng).2.1.objects = scene.objects ++ [Obj.explosion e] ∧
        e.scale = ⟨10, 10, 10⟩ ∧ e.position = self.position) ∧
      ((self.onClick env scene rng).2.1.objects.filter Obj.isAsteroid).length =
        (scene.objects.filter Obj.isAsteroid).length ∧
      (self.onClick env scene rng).1.age = 10000 ∧
      ((self.onClick env scene rng).1.update selfIdx env2 scene2 dt rng2).alive = false ∧
      ((self.onClick env scene rng).1.update selfIdx env2 scene2 dt rng2).scene = scene2 := by
  have hobjs : (self.onClick env scene rng).2.1.objects =
      scene.objects ++ [Obj.explosion (self.explosionAt env self.position ⟨10, 10, 10⟩)] := by
    have h := Asteroid.explode_objects self env scene self.position ⟨10, 10, 10⟩ 0 rng
    simpa [Asteroid.fragmentsFrom] using h
  have hage : (self.onClick env scene rng).1.age = 10000 := rfl
  have hexp : ((self.onClick env scene rng).1.integrate dt).expired := by
    left
    rw [Asteroid.integrate_age, hage]
    linarith
  refine ⟨⟨_, hobjs, rfl, rfl⟩, ?_, hage, ?_, ?_⟩
  · rw [hobjs]
    simp [List.filter_append, Obj.isAsteroid]
  · rw [Asteroid.update_of_expired _ selfIdx env2 scene2 dt rng2 hexp]
  · rw [Asteroid.update_of_expired _ selfIdx env2 scene2 dt rng2 hexp]

/-- Witness of C6: rockA is clicked in a scene that holds rockA and rockB, and is then
updated next to rockB. -/
theorem onClick_effect_witness :
    (∃ e : Explosion,
        (rockA.onClick sampleEnv ⟨[Obj.asteroid rockA, Obj.asteroid rockB]⟩
          sampleRng).2.1.objects =
          [Obj.asteroid rockA, Obj.asteroid rockB] ++ [Obj.explosion e] ∧
        e.scale = ⟨10, 10, 10⟩ ∧ e.position = rockA.position) ∧
      ((rockA.onClick sampleEnv ⟨[Obj.asteroid rockA, Obj.asteroid rockB]⟩
          sampleRng).2.1.objects.filter Obj.isAsteroid).length =
        ([Obj.asteroid rockA, Obj.asteroid rockB].filter Obj.isAsteroid).length ∧
      (rockA.onClick sampleEnv ⟨[Obj.asteroid rockA, Obj.asteroid rockB]⟩
        sampleRng).1.age = 10000 ∧
      ((rockA.onClick sampleEnv ⟨[Obj.asteroid rockA, Obj.asteroid rockB]⟩
        sampleRng).1.update 0 sampleEnv ⟨[Obj.asteroid rockA, Obj.asteroid rockB]⟩ (1 / 10)
        sampleRng).alive = false ∧
      ((rockA.onClick sampleEnv ⟨[Obj.asteroid rockA, Obj.asteroid rockB]⟩
        sampleRng).1.update 0 sampleEnv ⟨[Obj.asteroid rockA, Obj.asteroid rockB]⟩ (1 / 10)
        sampleRng).scene = ⟨[Obj.asteroid rockA, Obj.asteroid rockB]⟩ :=
  onClick_effect rockA sampleEnv ⟨[Obj.asteroid rockA, Obj.asteroid rockB]⟩ sampleRng 0
    sampleEnv ⟨[Obj.asteroid rockA, Obj.asteroid rockB]⟩ (1 / 10) sampleRng (by norm_num)

/-! ## Age -/

theorem Asteroid.stepWith_age (ops : FloatOps) (self : Asteroid) (selfIdx : Nat)
    (scene : Scene) (dt : ℚ) :
    (self.stepWith ops selfIdx scene dt).asteroid.age = ops.add self.age dt := by
  unfold Asteroid.stepWith
  simp only
  split
  · rfl
  · split <;> rfl

theorem Asteroid.runStepsWith_append (ops : FloatOps) (self : Asteroid)
    (fs1 fs2 : List Frame) :
    self.runStepsWith ops (fs1 ++ fs2) = (self.runStepsWith ops fs1).runStepsWith ops fs2 := by
  induction fs1 generalizing self with
  | nil => rfl
  | cons f fs ih =>
    rw [List.cons_append]
    simp only [Asteroid.runStepsWith]
    exact ih _

theorem Asteroid.runStepsWith_age_le (ops : FloatOps) (self : Asteroid) (fs : List Frame)
    (h : ∀ f ∈ fs, 0 ≤ f.dt) : self.age ≤ (self.runStepsWith ops fs).age := by
  induction fs generalizing self with
  | nil => exact le_refl _
  | cons f fs ih =>
    have h1 : self.age ≤ (self.stepWith ops f.selfIdx f.scene f.dt).asteroid.age := by
      rw [Asteroid.stepWith_age]
      exact ops.le_add self.age f.dt (h f (List.mem_cons_self f fs))
    exact le_trans h1 (ih _ (fun g hg => h g (List.mem_cons_of_mem f hg)))

/-- C9 (as amended): every call of update, whatever it returns, leaves age equal to the
float sum of the previous age and dt; so the age does not decrease on an update with
dt >= 0, it is unchanged when dt = 0, and over successive updates with frame times >= 0
the sequence of ages is monotonic (non-decreasing). -/
theorem update_age (ops : FloatOps) (self : Asteroid) (selfIdx : Nat) (scene : Scene)
    (dt : ℚ) :
    (self.stepWith ops selfIdx scene dt).asteroid.age = ops.add self.age dt ∧
      (0 ≤ dt → self.age ≤ (self.stepWith ops selfIdx scene dt).asteroid.age) ∧
      (dt = 0 → (self.stepWith ops selfIdx scene dt).asteroid.age = self.age) ∧
      ∀ fs1 fs2 : List Frame, (∀ f ∈ fs2, 0 ≤ f.dt) →
        (self.runStepsWith ops fs1).age ≤ (self.runStepsWith ops (fs1 ++ fs2)).age := by
  rw [Asteroid.stepWith_age]
  refine ⟨rfl, fun h => ops.le_add self.age dt h, ?_, ?_⟩
  · intro h
    rw [h]
    exact ops.add_zero self.age
  · intro fs1 fs2 hfs
    rw [Asteroid.runStepsWith_append]
    exact Asteroid.runStepsWith_age_le ops _ fs2 hfs

/-- Counterexample to C9 as stated: with dt = 0 the update of rockA leaves its age at 1,
so the age has not strictly increased. -/
theorem update_age_counterexample :
    (rockA.stepWith sampleOps 0 ⟨[Obj.asteroid rockA]⟩ 0).asteroid.age = rockA.age ∧
      ¬ rockA.age < (rockA.stepWith sampleOps 0 ⟨[Obj.asteroid rockA]⟩ 0).asteroid.age ∧
      (rockA.update 0 sampleEnv ⟨[Obj.asteroid rockA]⟩ 0 sampleRng).asteroid.age = rockA.age := by
  have h : (rockA.stepWith sampleOps 0 ⟨[Obj.asteroid rockA]⟩ 0).asteroid.age = rockA.age := by
    rw [Asteroid.stepWith_age]
    exact sampleOps.add_zero rockA.age
  refine ⟨h, by rw [h]; exact lt_irrefl _, ?_⟩
  norm_num [Asteroid.update, Asteroid.integrate, Asteroid.expired, Asteroid.collideFrom,
    Asteroid.generateModelMatrix, rockA, sampleAsteroid, Vec3.smul, Vec3.zero, Vec3.one]

/-! ## Self-exclusion, grace period, proximity -/

/-- An object that is neither an asteroid nor a projectile does not pass the tests. -/
theorem Asteroid.not_hits_of_nonparticipant (self : Asteroid) (o : Obj)
    (h : o.asAsteroid = none ∧ o.asProjectile = none) : ¬ self.hits o := by
  rintro ⟨h1, -, -⟩
  exact h1 (by simp [h.1, h.2])

/-- During the first half second no asteroid passes the tests. -/
theorem Asteroid.not_hits_asteroid_of_young (self : Asteroid) (b : Asteroid)
    (h : self.age < 1 / 2) : ¬ self.hits (Obj.asteroid b) := by
  rintro ⟨-, h2, -⟩
  exact h2 ⟨by simp [Obj.asAsteroid], h⟩

/-- An asteroid with positive scale.y is closer to its own position than the threshold
of the proximity test against an object of its own scale. -/
theorem Asteroid.distanceLt_self (self : Asteroid) (h : 0 < self.scale.y) :
    Vec3.distanceLt self.position self.position ((self.scale.y + self.scale.y) * (7 / 10)) := by
  unfold Vec3.distanceLt
  rw [Vec3.distSq_self]
  constructor
  · nlinarith
  · nlinarith [mul_pos h h]

/-- C7: the scan never matches the updating asteroid itself. For a non-expiring asteroid
with scale.y > 0 the proximity test against its own position and scale succeeds; yet in
a scene (scene1) whose slot selfIdx holds the asteroid itself and whose other objects are
neither asteroids nor projectiles, update returns true and leaves the scene as it was.
The exclusion is by identity: in a scene (scene2) that holds, in another slot j, an
asteroid with the same position and scale, update returns false and appends exactly one
Explosion as soon as the updating asteroid is at least half a second old. -/
theorem update_self_exclusion (self : Asteroid) (selfIdx : Nat) (env : Env) (dt : ℚ)
    (rng : Rng) (scene1 scene2 : Scene) (j : Nat) (b : Asteroid)
    (hne : ¬ (self.integrate dt).expired) (hpos : 0 < self.scale.y)
    (_hslot1 : scene1.objects[selfIdx]? = some (Obj.asteroid (self.integrate dt)))
    (hothers1 : ∀ k o, scene1.objects[k]? = some o → k ≠ selfIdx →
      o.asAsteroid = none ∧ o.asProjectile = none)
    (hj : scene2.objects[j]? = some (Obj.asteroid b)) (hjs : j ≠ selfIdx)
    (hbpos : b.position = (self.integrate dt).position)
    (hbscale : b.scale = (self.integrate dt).scale) :
    Vec3.distanceLt (self.integrate dt).position (self.integrate dt).position
        (((self.integrate dt).scale.y + (self.integrate dt).scale.y) * (7 / 10)) ∧
      ((self.update selfIdx env scene1 dt rng).alive = true ∧
        (self.update selfIdx env scene1 dt rng).scene = scene1) ∧
      (1 / 2 ≤ (self.integrate dt).age →
        (self.update selfIdx env scene2 dt rng).alive = false ∧
        ((Scene.added scene2 (self.update selfIdx env scene2 dt rng).scene).filter
          Obj.isExplosion).length = 1) := by
  have hno : ¬ (self.integrate dt).collides selfIdx scene1 := by
    rintro ⟨k, o, hk, hks, hhit⟩
    exact Asteroid.not_hits_of_nonparticipant _ o (hothers1 k o hk hks) hhit
  refine ⟨Asteroid.distanceLt_self (self.integrate dt) hpos, ?_, ?_⟩
  · rw [Asteroid.update_of_not_collides self selfIdx env scene1 dt rng hne hno]
    exact ⟨rfl, rfl⟩
  · intro hage
    have hb : (self.integrate dt).hits (Obj.asteroid b) := by
      refine ⟨by simp [Obj.asAsteroid], ?_, ?_⟩
      · rintro ⟨-, h⟩
        exact absurd h (not_lt.2 hage)
      · simp only [Obj.position, Obj.scale, hbpos, hbscale]
        exact Asteroid.distanceLt_self (self.integrate dt) hpos
    obtain ⟨halive, -, e, hadded⟩ :=
      Asteroid.update_collides_added self selfIdx env scene2 dt rng hne ⟨j, _, hj, hjs, hb⟩
    refine ⟨halive, ?_⟩
    rw [hadded]
    simp [List.filter, Obj.isExplosion, Obj.filter_isExplosion_asteroids]

/-- On the sample frame rockB, at rest, is not expired. -/
theorem rockB_not_expired : ¬ (rockB.integrate (1 / 10)).expired := by
  norm_num [Asteroid.expired, Asteroid.integrate, rockB, sampleAsteroid, Vec3.smul,
    Vec3.zero]

/-- Witness of C7: rockB in slot 0; scene1 holds it and an explosion at the same place,
scene2 holds it and a second asteroid of the same value in slot 1. -/
theorem update_self_exclusion_witness :
    Vec3.distanceLt (rockB.integrate (1 / 10)).position (rockB.integrate (1 / 10)).position
        (((rockB.integrate (1 / 10)).scale.y + (rockB.integrate (1 / 10)).scale.y) *
          (7 / 10)) ∧
      ((rockB.update 0 sampleEnv
          ⟨[Obj.asteroid (rockB.integrate (1 / 10)), Obj.explosion blast]⟩ (1 / 10)
          sampleRng).alive = true ∧
        (rockB.update 0 sampleEnv
          ⟨[Obj.asteroid (rockB.integrate (1 / 10)), Obj.explosion blast]⟩ (1 / 10)
          sampleRng).scene =
          ⟨[Obj.asteroid (rockB.integrate (1 / 10)), Obj.explosion blast]⟩) ∧
      ((rockB.update 0 sampleEnv
          ⟨[Obj.asteroid (rockB.integrate (1 / 10)),
            Obj.asteroid (rockB.integrate (1 / 10))]⟩ (1 / 10) sampleRng).alive = false ∧
        ((Scene.added
          ⟨[Obj.asteroid (rockB.integrate (1 / 10)), Obj.asteroid (rockB.integrate (1 / 10))]⟩
          (rockB.update 0 sampleEnv
            ⟨[Obj.asteroid (rockB.integrate (1 / 10)),
              Obj.asteroid (rockB.integrate (1 / 10))]⟩ (1 / 10) sampleRng).scene).filter
          Obj.isExplosion).length = 1) :=
  have h := update_self_exclusion rockB 0 sampleEnv (1 / 10) sampleRng
    ⟨[Obj.asteroid (rockB.integrate (1 / 10)), Obj.explosion blast]⟩
    ⟨[Obj.asteroid (rockB.integrate (1 / 10)), Obj.asteroid (rockB.integrate (1 / 10))]⟩
    1 (rockB.integrate (1 / 10))
    rockB_not_expired
    (by norm_num [rockB, sampleAsteroid, Vec3.one])
    rfl
    (by
      intro k o hk hks
      have hlt : k < 2 := (List.getElem?_eq_some.1 hk).1
      have hk1 : k = 1 := by omega
      subst hk1
      have ho : o = Obj.explosion blast := by
        simpa using hk.symm
      subst ho
      exact ⟨rfl, rfl⟩)
    rfl (by decide) rfl rfl
  ⟨h.1, h.2.1, h.2.2 (by norm_num [Asteroid.integrate, rockB, sampleAsteroid])⟩

/-- On a frame without expiry, update returns false exactly when some object of the
scene other than the asteroid's own slot passes the tests. -/
theorem Asteroid.update_alive_false_iff (self : Asteroid) (selfIdx : Nat) (env : Env)
    (scene : Scene) (dt : ℚ) (rng : Rng) (hne : ¬ (self.integrate dt).expired) :
    (self.update selfIdx env scene dt rng).alive = false ↔
      (self.integrate dt).collides selfIdx scene := by
  constructor
  · intro h
    by_contra hno
    rw [Asteroid.update_of_not_collides self selfIdx env scene dt rng hne hno] at h
    exact Bool.noConfusion h
  · intro h
    exact (Asteroid.update_collides_added self selfIdx env scene dt rng hne h).1

/-- C8: while the asteroid's age, after this frame's increment, is below 0.5, no asteroid
passes the tests of the scan, however close it is; a collision that update reports on
such a frame is one with a projectile, which is left marked; and in a scene (scene2)
whose other objects are all asteroids a non-expiring update returns true and leaves the
scene as it was. -/
theorem update_grace_period (self : Asteroid) (selfIdx : Nat) (env : Env) (dt : ℚ)
    (rng : Rng) (scene1 scene2 : Scene)
    (hne : ¬ (self.integrate dt).expired)
    (hyoung : (self.integrate dt).age < 1 / 2)
    (hall2 : ∀ k o, scene2.objects[k]? = some o → k ≠ selfIdx → ∃ b, o = Obj.asteroid b) :
    (∀ b : Asteroid, ¬ (self.integrate dt).hits (Obj.asteroid b)) ∧
      ((self.update selfIdx env scene1 dt rng).alive = false →
        ∃ j p, (self.integrate dt).firstHitAt selfIdx scene1 j (Obj.projectile p) ∧
          (self.update selfIdx env scene1 dt rng).scene.objects[j]? =
            some (Obj.projectile p.destroy)) ∧
      ((self.update selfIdx env scene2 dt rng).alive = true ∧
        (self.update selfIdx env scene2 dt rng).scene = scene2) := by
  refine ⟨fun b => Asteroid.not_hits_asteroid_of_young _ b hyoung, ?_, ?_⟩
  · intro hfalse
    have hcol := (Asteroid.update_alive_false_iff self selfIdx env scene1 dt rng hne).1 hfalse
    obtain ⟨j, obj, hfirst⟩ := Asteroid.exists_firstHit _ selfIdx scene1 hcol
    cases obj with
    | asteroid b => exact absurd hfirst.2.2.1 (Asteroid.not_hits_asteroid_of_young _ b hyoung)
    | explosion e =>
      exact absurd hfirst.2.2.1 (Asteroid.not_hits_of_nonparticipant _ _ ⟨rfl, rfl⟩)
    | other o =>
      exact absurd hfirst.2.2.1 (Asteroid.not_hits_of_nonparticipant _ _ ⟨rfl, rfl⟩)
    | projectile p =>
      refine ⟨j, p, hfirst, ?_⟩
      obtain ⟨-, hobjs⟩ :=
        Asteroid.update_firstHit_objects self selfIdx env scene1 dt rng j _ hne hfirst
      have hjlt : j < scene1.objects.length := (List.getElem?_eq_some.1 hfirst.1).1
      have hmark : (scene1.marked j (Obj.projectile p)).objects =
          scene1.objects.set j (Obj.projectile p.destroy) := rfl
      rw [hobjs, hmark, List.getElem?_append_left (by simpa using hjlt)]
      simp [List.getElem?_set, hjlt]
  · have hno : ¬ (self.integrate dt).collides selfIdx scene2 := by
      rintro ⟨k, o, hk, hks, hhit⟩
      obtain ⟨b, rfl⟩ := hall2 k o hk hks
      exact Asteroid.not_hits_asteroid_of_young _ b hyoung hhit
    rw [Asteroid.update_of_not_collides self selfIdx env scene2 dt rng hne hno]
    exact ⟨rfl, rfl⟩

/-- Witness of C8: youngRock, a tenth of a second old after the increment, in slot 0;
scene1 holds a sibling at the same position and the bullet, scene2 two siblings at the
same position. -/
theorem update_grace_period_witness :
    (∀ b : Asteroid, ¬ (youngRock.integrate (1 / 10)).hits (Obj.asteroid b)) ∧
      ((youngRock.update 0 sampleEnv
          ⟨[Obj.asteroid youngRock, Obj.asteroid youngRock, Obj.projectile bullet]⟩ (1 / 10)
          sampleRng).alive = false →
        ∃ j p, (youngRock.integrate (1 / 10)).firstHitAt 0
            ⟨[Obj.asteroid youngRock, Obj.asteroid youngRock, Obj.projectile bullet]⟩ j
            (Obj.projectile p) ∧
          (youngRock.update 0 sampleEnv
            ⟨[Obj.asteroid youngRock, Obj.asteroid youngRock, Obj.projectile bullet]⟩
            (1 / 10) sampleRng).scene.objects[j]? = some (Obj.projectile p.destroy)) ∧
      ((youngRock.update 0 sampleEnv
          ⟨[Obj.asteroid youngRock, Obj.asteroid youngRock, Obj.asteroid youngRock]⟩ (1 / 10)
          sampleRng).alive = true ∧
        (youngRock.update 0 sampleEnv
          ⟨[Obj.asteroid youngRock, Obj.asteroid youngRock, Obj.asteroid youngRock]⟩ (1 / 10)
          sampleRng).scene =
          ⟨[Obj.asteroid youngRock, Obj.asteroid youngRock, Obj.asteroid youngRock]⟩) :=
  update_grace_period youngRock 0 sampleEnv (1 / 10) sampleRng
    ⟨[Obj.asteroid youngRock, Obj.asteroid youngRock, Obj.projectile bullet]⟩
    ⟨[Obj.asteroid youngRock, Obj.asteroid youngRock, Obj.asteroid youngRock]⟩
    (by norm_num [Asteroid.expired, Asteroid.integrate, youngRock, sampleAsteroid, Vec3.smul,
      Vec3.zero])
    (by norm_num [Asteroid.integrate, youngRock, sampleAsteroid])
    (by
      intro k o hk _
      have hlt : k < 3 := (List.getElem?_eq_some.1 hk).1
      have ho : o = Obj.asteroid youngRock := by
        interval_cases k <;> simpa using hk.symm
      exact ⟨youngRock, ho⟩)

/-! ## The proximity test with the machine's operations -/

theorem Asteroid.scanWith_none (ops : FloatOps) (self : Asteroid) (selfIdx : Nat) (i : Nat)
    (rest : List Obj)
    (h : ∀ k o, rest[k]? = some o → i + k = selfIdx ∨ ¬ self.hitsWith ops o) :
    self.scanWith ops selfIdx i rest = none := by
  induction rest generalizing i with
  | nil => rfl
  | cons obj rest ih =>
    have hrest : self.scanWith ops selfIdx (i + 1) rest = none := by
      apply ih
      intro k o hk
      have := h (k + 1) o (by simpa using hk)
      rwa [show i + 1 + k = i + (k + 1) by omega]
    have h0 := h 0 obj (by simp)
    unfold Asteroid.scanWith
    by_cases hi : i = selfIdx
    · simp [hi] at hrest ⊢
      exact hrest
    · have hh : ¬ self.hitsWith ops obj := by
        rcases h0 with h0 | h0
        · exact absurd h0 hi
        · exact h0
      simp only [hi, if_false]
      unfold Asteroid.hitsWith at hh
      by_cases h1 : obj.asAsteroid.isNone ∧ obj.asProjectile.isNone
      · simp only [h1, and_self, if_true]; exact hrest
      · by_cases h2 : obj.asAsteroid.isSome ∧ self.age < 1 / 2
        · simp only [h1, h2, and_self, if_true, if_false]; exact hrest
        · have h3 : ¬ ops.distance self.position obj.position <
              ops.mul (ops.add obj.scale.y self.scale.y) ops.c07 := fun h3 => hh ⟨h1, h2, h3⟩
          simp only [h1, h2, h3, if_false]; exact hrest

theorem Asteroid.scanWith_first (ops : FloatOps) (self : Asteroid) (selfIdx : Nat) (i : Nat)
    (pre : List Obj) (obj : Obj) (post : List Obj)
    (hpre : ∀ k o, pre[k]? = some o → i + k = selfIdx ∨ ¬ self.hitsWith ops o)
    (hidx : i + pre.length ≠ selfIdx) (hhit : self.hitsWith ops obj) :
    self.scanWith ops selfIdx i (pre ++ obj :: post) = some (i + pre.length) := by
  induction pre generalizing i with
  | nil =>
    have hi : i ≠ selfIdx := by simpa using hidx
    obtain ⟨h1, h2, h3⟩ := hhit
    simp only [List.nil_append, List.length_nil, Nat.add_zero]
    unfold Asteroid.scanWith
    simp only [hi, h1, h2, h3, if_false, if_true]
  | cons o pre ih =>
    have hrest := ih (i + 1)
      (by
        intro k o' hk
        have := hpre (k + 1) o' (by simpa using hk)
        rwa [show i + 1 + k = i + (k + 1) by omega])
      (by simpa [Nat.add_assoc, Nat.add_comm 1] using hidx)
    have h0 := hpre 0 o (by simp)
    have hlen : i + (o :: pre).length = i + 1 + pre.length := by simp; omega
    rw [hlen, ← hrest]
    simp only [List.cons_append]
    conv_lhs => unfold Asteroid.scanWith
    by_cases hi : i = selfIdx
    · simp [hi]
    · have hh : ¬ self.hitsWith ops o := by
        rcases h0 with h0 | h0
        · exact absurd h0 hi
        · exact h0
      simp only [hi, if_false]
      unfold Asteroid.hitsWith at hh
      by_cases h1 : o.asAsteroid.isNone ∧ o.asProjectile.isNone
      · simp only [h1, and_self, if_true]
      · by_cases h2 : o.asAsteroid.isSome ∧ self.age < 1 / 2
        · simp only [h1, h2, and_self, if_true, if_false]
        · have h3 : ¬ ops.distance self.position o.position <
              ops.mul (ops.add o.scale.y self.scale.y) ops.c07 := fun h3 => hh ⟨h1, h2, h3⟩
          simp only [h1, h2, h3, if_false]

/-- On a frame without expiry, update with the machine's operations returns false
exactly when some object of the scene other than the asteroid's own slot passes the
tests. -/
theorem Asteroid.stepWith_alive_false_iff (ops : FloatOps) (self : Asteroid) (selfIdx : Nat)
    (scene : Scene) (dt : ℚ) (hne : ¬ (self.integrateWith ops dt).expired) :
    (self.stepWith ops selfIdx scene dt).alive = false ↔
      ∃ j obj, scene.objects[j]? = some obj ∧ j ≠ selfIdx ∧
        (self.integrateWith ops dt).hitsWith ops obj := by
  classical
  constructor
  · intro h
    by_contra hno
    have hscan := Asteroid.scanWith_none ops (self.integrateWith ops dt) selfIdx 0
      scene.objects
      (by
        intro k o hk
        by_cases hks : k = selfIdx
        · left; omega
        · right
          intro hhit
          exact hno ⟨k, o, hk, hks, hhit⟩)
    simp only [Asteroid.stepWith, hne, if_false, hscan] at h
    exact Bool.noConfusion h
  · intro hex
    obtain ⟨obj, hj, hjs, hhit⟩ := Nat.find_spec hex
    obtain ⟨hsplit, hlen⟩ := List.split_at_getElem? scene.objects (Nat.find hex) obj hj
    have hscan := Asteroid.scanWith_first ops (self.integrateWith ops dt) selfIdx 0
      (scene.objects.take (Nat.find hex)) obj (scene.objects.drop (Nat.find hex + 1))
      (by
        intro k o hk
        have hkj : k < Nat.find hex := by
          have := (List.getElem?_eq_some.1 hk).1
          exact lt_of_lt_of_le this (le_of_eq hlen)
        have hk' : scene.objects[k]? = some o := by
          rw [List.getElem?_take_of_lt hkj] at hk
          exact hk
        by_cases hks : k = selfIdx
        · left; omega
        · right
          intro hh
          exact Nat.find_min hex hkj ⟨o, hk', hks, hh⟩)
      (by simpa [hlen] using hjs) hhit
    rw [← hsplit] at hscan
    simp only [Asteroid.stepWith, hne, if_false, hscan]

/-- The two embeddings of update are one algorithm: when the machine's sum and product
are exact on the frame at hand and its proximity test decides as the exact one does for
the objects of the scene, update with the machine's operations returns what
`Asteroid.update` returns and leaves the asteroid as it leaves it. -/
theorem Asteroid.stepWith_eq_update (ops : FloatOps) (self : Asteroid) (selfIdx : Nat)
    (env : Env) (scene : Scene) (dt : ℚ) (rng : Rng)
    (hint : self.integrateWith ops dt = self.integrate dt)
    (htest : ∀ j obj, scene.objects[j]? = some obj → j ≠ selfIdx →
      ((self.integrate dt).hitsWith ops obj ↔ (self.integrate dt).hits obj)) :
    (self.stepWith ops selfIdx scene dt).alive = (self.update selfIdx env scene dt rng).alive ∧
      (self.stepWith ops selfIdx scene dt).asteroid =
        (self.update selfIdx env scene dt rng).asteroid := by
  by_cases hexp : (self.integrate dt).expired
  · rw [Asteroid.update_of_expired self selfIdx env scene dt rng hexp]
    simp only [Asteroid.stepWith, hint, hexp, if_true, and_self]
  · have hexp' : ¬ (self.integrateWith ops dt).expired := by rw [hint]; exact hexp
    by_cases hcol : (self.integrate dt).collides selfIdx scene
    · obtain ⟨j, obj, hj, hjs, hhit⟩ := hcol
      have hfalse : (self.stepWith ops selfIdx scene dt).alive = false :=
        (Asteroid.stepWith_alive_false_iff ops self selfIdx scene dt hexp').2
          ⟨j, obj, hj, hjs, by rw [hint]; exact (htest j obj hj hjs).2 hhit⟩
      have hup := Asteroid.update_collides_added self selfIdx env scene dt rng hexp
        ⟨j, obj, hj, hjs, hhit⟩
      obtain ⟨j', obj', hfirst⟩ :=
        Asteroid.exists_firstHit _ selfIdx scene ⟨j, obj, hj, hjs, hhit⟩
      refine ⟨by rw [hfalse, hup.1], ?_⟩
      rw [Asteroid.update_of_firstHit self selfIdx env scene dt rng j' obj' hexp hfirst]
      have hstep : (self.stepWith ops selfIdx scene dt).asteroid =
          self.integrateWith ops dt := by
        have hf := hfalse
        unfold Asteroid.stepWith at hf ⊢
        simp only [hexp', if_false] at hf ⊢
        split
        · rfl
        · rename_i hnone
          rw [hnone] at hf
          exact Bool.noConfusion hf
      rw [hstep, hint]
    · have hno : ¬ ∃ j obj, scene.objects[j]? = some obj ∧ j ≠ selfIdx ∧
          (self.integrateWith ops dt).hitsWith ops obj := by
        rintro ⟨j, obj, hj, hjs, hhit⟩
        rw [hint] at hhit
        exact hcol ⟨j, obj, hj, hjs, (htest j obj hj hjs).1 hhit⟩
      have hscan := Asteroid.scanWith_none ops (self.integrateWith ops dt) selfIdx 0
        scene.objects
        (by
          intro k o hk
          by_cases hks : k = selfIdx
          · left; omega
          · right
            intro hhit
            exact hno ⟨k, o, hk, hks, hhit⟩)
      rw [hint] at hscan
      rw [Asteroid.update_of_not_collides self selfIdx env scene dt rng hexp hcol]
      simp only [Asteroid.stepWith, hint, hexp, if_false, hscan, and_self]

/-! ## The surviving frame -/

/-- C11: on a frame on which the asteroid, after integration, is not expired and no
object of the scene passes the tests, update returns true and leaves the scene as it
was; the asteroid's age has advanced by dt, its position by speed * dt and its rotation
by rotMomentum * dt; speed, rotMomentum and scale are unchanged; and the model matrix is
the one generated from the new position, the new rotation and the scale. -/
theorem update_survives (self : Asteroid) (selfIdx : Nat) (env : Env) (scene : Scene)
    (dt : ℚ) (rng : Rng)
    (hne : ¬ (self.integrate dt).expired)
    (hno : ¬ (self.integrate dt).collides selfIdx scene) :
    (self.update selfIdx env scene dt rng).alive = true ∧
      (self.update selfIdx env scene dt rng).scene = scene ∧
      (self.update selfIdx env scene dt rng).asteroid.position =
        self.position + self.speed.smul dt ∧
      (self.update selfIdx env scene dt rng).asteroid.rotation =
        self.rotation + self.rotMomentum.smul dt ∧
      (self.update selfIdx env scene dt rng).asteroid.age = self.age + dt ∧
      (self.update selfIdx env scene dt rng).asteroid.speed = self.speed ∧
      (self.update selfIdx env scene dt rng).asteroid.rotMomentum = self.rotMomentum ∧
      (self.update selfIdx env scene dt rng).asteroid.scale = self.scale ∧
      (self.update selfIdx env scene dt rng).asteroid.modelMatrix =
        ⟨self.position + self.speed.smul dt, self.rotation + self.rotMomentum.smul dt,
          self.scale⟩ := by
  rw [Asteroid.update_of_not_collides self selfIdx env scene dt rng hne hno]
  exact ⟨rfl, rfl, rfl, rfl, rfl, rfl, rfl, rfl, rfl⟩

/-- On the sample frame rockA does not pass the tests against anything in the scene that
holds it and farRock. -/
theorem rockA_misses_farRock :
    ¬ (rockA.integrate (1 / 10)).collides 0 ⟨[Obj.asteroid rockA, Obj.asteroid farRock]⟩ := by
  rintro ⟨k, o, hk, hks, hhit⟩
  have hlt : k < 2 := (List.getElem?_eq_some.1 hk).1
  have hk1 : k = 1 := by omega
  subst hk1
  have ho : o = Obj.asteroid farRock := by
    simpa using hk.symm
  subst ho
  revert hhit
  norm_num [Asteroid.hits, Obj.asAsteroid, Obj.asProjectile, Obj.position, Obj.scale,
    Vec3.distanceLt, Vec3.distSq, Asteroid.integrate, rockA, farRock, sampleAsteroid,
    Vec3.smul, Vec3.zero, Vec3.one]

/-- Witness of C11: rockA in slot 0, with farRock out of reach in slot 1. -/
theorem update_survives_witness :
    (rockA.update 0 sampleEnv ⟨[Obj.asteroid rockA, Obj.asteroid farRock]⟩ (1 / 10)
        sampleRng).alive = true ∧
      (rockA.update 0 sampleEnv ⟨[Obj.asteroid rockA, Obj.asteroid farRock]⟩ (1 / 10)
        sampleRng).scene = ⟨[Obj.asteroid rockA, Obj.asteroid farRock]⟩ ∧
      (rockA.update 0 sampleEnv ⟨[Obj.asteroid rockA, Obj.asteroid farRock]⟩ (1 / 10)
        sampleRng).asteroid.position = rockA.position + rockA.speed.smul (1 / 10) ∧
      (rockA.update 0 sampleEnv ⟨[Obj.asteroid rockA, Obj.asteroid farRock]⟩ (1 / 10)
        sampleRng).asteroid.rotation = rockA.rotation + rockA.rotMomentum.smul (1 / 10) ∧
      (rockA.update 0 sampleEnv ⟨[Obj.asteroid rockA, Obj.asteroid farRock]⟩ (1 / 10)
        sampleRng).asteroid.age = rockA.age + 1 / 10 ∧
      (rockA.update 0 sampleEnv ⟨[Obj.asteroid rockA, Obj.asteroid farRock]⟩ (1 / 10)
        sampleRng).asteroid.speed = rockA.speed ∧
      (rockA.update 0 sampleEnv ⟨[Obj.asteroid rockA, Obj.asteroid farRock]⟩ (1 / 10)
        sampleRng).asteroid.rotMomentum = rockA.rotMomentum ∧
      (rockA.update 0 sampleEnv ⟨[Obj.asteroid rockA, Obj.asteroid farRock]⟩ (1 / 10)
        sampleRng).asteroid.scale = rockA.scale ∧
      (rockA.update 0 sampleEnv ⟨[Obj.asteroid rockA, Obj.asteroid farRock]⟩ (1 / 10)
        sampleRng).asteroid.modelMatrix =
        ⟨rockA.position + rockA.speed.smul (1 / 10),
          rockA.rotation + rockA.rotMomentum.smul (1 / 10), rockA.scale⟩ :=
  update_survives rockA 0 sampleEnv ⟨[Obj.asteroid rockA, Obj.asteroid farRock]⟩ (1 / 10)
    sampleRng rockA_not_expired rockA_misses_farRock

/-! ## Parameters of the explosion and of the fragments -/

/-- C12: the Explosion appended by a colliding update, whose first candidate passing the
tests is obj, is the only one appended; its position is the midpoint
(obj.position + position) / 2 of the candidate and the integrated asteroid, its scale the
average (obj.scale + scale) / 2 and its velocity speed / 2. In general explode, for every
centre c, scale s and piece count n, appends exactly one Explosion, with position c,
scale s and velocity speed / 2, followed by asteroids only. -/
theorem explosion_parameters (self : Asteroid) (selfIdx : Nat) (env : Env) (scene : Scene)
    (dt : ℚ) (rng : Rng) (j : Nat) (obj : Obj)
    (hne : ¬ (self.integrate dt).expired)
    (hfirst : (self.integrate dt).firstHitAt selfIdx scene j obj) :
    (∃ (e : Explosion) (frags : List Asteroid),
        Scene.added scene (self.update selfIdx env scene dt rng).scene =
          Obj.explosion e :: frags.map Obj.asteroid ∧
        e.position = (obj.position + (self.integrate dt).position).sdiv 2 ∧
        e.scale = (obj.scale + self.scale).sdiv 2 ∧
        e.speed = self.speed.sdiv 2) ∧
      ((Scene.added scene (self.update selfIdx env scene dt rng).scene).filter
        Obj.isExplosion).length = 1 ∧
      ∀ (a : Asteroid) (scene2 : Scene) (c s : Vec3) (n : Int) (rng2 : Rng),
        (∃ (e : Explosion) (frags : List Asteroid),
          (a.explode env scene2 c s n rng2).1.objects =
            scene2.objects ++ Obj.explosion e :: frags.map Obj.asteroid ∧
          e.position = c ∧ e.scale = s ∧ e.speed = a.speed.sdiv 2) ∧
        ((Scene.added scene2 (a.explode env scene2 c s n rng2).1).filter
          Obj.isExplosion).length = 1 := by
  obtain ⟨-, hobjs⟩ :=
    Asteroid.update_firstHit_objects self selfIdx env scene dt rng j obj hne hfirst
  have hadded := Scene.added_of_append scene _ _ _ hobjs (Scene.marked_length _ _ _)
  refine ⟨⟨_, _, hadded, rfl, rfl, rfl⟩, ?_, ?_⟩
  · rw [hadded]
    simp [List.filter, Obj.isExplosion, Obj.filter_isExplosion_asteroids]
  · intro a scene2 c s n rng2
    have hex := Asteroid.explode_objects a env scene2 c s n rng2
    refine ⟨⟨_, _, hex, rfl, rfl, rfl⟩, ?_⟩
    rw [Scene.added_of_append scene2 _ _ _ hex rfl]
    simp [List.filter, Obj.isExplosion, Obj.filter_isExplosion_asteroids]

/-- Witness of C12: rockA in slot 0 collides with rockB in slot 1. -/
theorem explosion_parameters_witness :
    (∃ (e : Explosion) (frags : List Asteroid),
        Scene.added ⟨[Obj.asteroid rockA, Obj.asteroid rockB]⟩
            (rockA.update 0 sampleEnv ⟨[Obj.asteroid rockA, Obj.asteroid rockB]⟩ (1 / 10)
              sampleRng).scene =
          Obj.explosion e :: frags.map Obj.asteroid ∧
        e.position =
          ((Obj.asteroid rockB).position + (rockA.integrate (1 / 10)).position).sdiv 2 ∧
        e.scale = ((Obj.asteroid rockB).scale + rockA.scale).sdiv 2 ∧
        e.speed = rockA.speed.sdiv 2) ∧
      ((Scene.added ⟨[Obj.asteroid rockA, Obj.asteroid rockB]⟩
          (rockA.update 0 sampleEnv ⟨[Obj.asteroid rockA, Obj.asteroid rockB]⟩ (1 / 10)
            sampleRng).scene).filter Obj.isExplosion).length = 1 ∧
      ∀ (a : Asteroid) (scene2 : Scene) (c s : Vec3) (n : Int) (rng2 : Rng),
        (∃ (e : Explosion) (frags : List Asteroid),
          (a.explode sampleEnv scene2 c s n rng2).1.objects =
            scene2.objects ++ Obj.explosion e :: frags.map Obj.asteroid ∧
          e.position = c ∧ e.scale = s ∧ e.speed = a.speed.sdiv 2) ∧
        ((Scene.added scene2 (a.explode sampleEnv scene2 c s n rng2).1).filter
          Obj.isExplosion).length = 1 :=
  explosion_parameters rockA 0 sampleEnv ⟨[Obj.asteroid rockA, Obj.asteroid rockB]⟩
    (1 / 10) sampleRng 1 (Obj.asteroid rockB) rockA_not_expired
    ⟨rfl, by decide, rockA_hits_rockB, fun k _ hk _ => Or.inl (by omega)⟩

/-- The attributes of one fragment: position, angular velocity and scale come from the
exploding asteroid, the velocity is the exploding asteroid's plus a perturbation drawn
from [-3, 3] x [-5, 0] x 0. -/
theorem Asteroid.fragment_attrs (self : Asteroid) (env : Env) (pieces : Int) (rng : Rng) :
    (self.fragment env pieces rng).1.position = self.position ∧
      (self.fragment env pieces rng).1.rotMomentum = self.rotMomentum ∧
      (self.fragment env pieces rng).1.scale = self.scale.sdiv ((pieces : ℚ) / 2) ∧
      ∃ px py : ℚ, -3 ≤ px ∧ px ≤ 3 ∧ -5 ≤ py ∧ py ≤ 0 ∧
        (self.fragment env pieces rng).1.speed = self.speed + ⟨px, py, 0⟩ := by
  refine ⟨rfl, rfl, rfl, (rng.lin 3).val * (3 - -3) + -3, (rng.lin 4).val * (-5 - 0) + 0,
    ?_, ?_, ?_, ?_, rfl⟩
  · have := (rng.lin 3).nonneg
    linarith
  · have := (rng.lin 3).le_one
    linarith
  · have := (rng.lin 4).le_one
    linarith
  · have := (rng.lin 4).nonneg
    linarith

theorem Asteroid.fragmentsFrom_attrs (self : Asteroid) (env : Env) (pieces : Int) (n : Nat)
    (rng : Rng) (a : Asteroid) (ha : a ∈ self.fragmentsFrom env pieces n rng) :
    a.position = self.position ∧ a.rotMomentum = self.rotMomentum ∧
      a.scale = self.scale.sdiv ((pieces : ℚ) / 2) ∧
      ∃ px py : ℚ, -3 ≤ px ∧ px ≤ 3 ∧ -5 ≤ py ∧ py ≤ 0 ∧
        a.speed = self.speed + ⟨px, py, 0⟩ := by
  induction n generalizing rng with
  | zero => simp [Asteroid.fragmentsFrom] at ha
  | succ n ih =>
    simp only [Asteroid.fragmentsFrom, List.mem_cons] at ha
    rcases ha with rfl | ha
    · exact Asteroid.fragment_attrs self env pieces rng
    · exact ih _ ha

/-- C13: for every piece count n > 0, explode appends, after the Explosion, exactly n new
Asteroids; each has the position of the exploding asteroid itself (not the explosion
centre c), its angular velocity, its scale divided by n / 2 on every axis, and its
velocity plus a perturbation with x in [-3, 3], y in [-5, 0] and z = 0. -/
theorem fragment_attributes (self : Asteroid) (env : Env) (scene : Scene) (c s : Vec3)
    (n : Int) (rng : Rng) (hn : 0 < n) :
    ∃ (e : Explosion) (frags : List Asteroid),
      (self.explode env scene c s n rng).1.objects =
        scene.objects ++ Obj.explosion e :: frags.map Obj.asteroid ∧
      (frags.length : Int) = n ∧
      ∀ a ∈ frags,
        a.position = self.position ∧ a.rotMomentum = self.rotMomentum ∧
        a.scale = ⟨self.scale.x / ((n : ℚ) / 2), self.scale.y / ((n : ℚ) / 2),
          self.scale.z / ((n : ℚ) / 2)⟩ ∧
        ∃ px py : ℚ, -3 ≤ px ∧ px ≤ 3 ∧ -5 ≤ py ∧ py ≤ 0 ∧
          a.speed = ⟨self.speed.x + px, self.speed.y + py, self.speed.z + 0⟩ := by
  refine ⟨_, _, Asteroid.explode_objects self env scene c s n rng, ?_, ?_⟩
  · rw [Asteroid.fragmentsFrom_length]
    exact Int.toNat_of_nonneg (le_of_lt hn)
  · intro a ha
    exact Asteroid.fragmentsFrom_attrs self env n n.toNat rng a ha

/-- Witness of C13: rockA explodes into three pieces at centre (1, 1, 1). -/
theorem fragment_attributes_witness :
    ∃ (e : Explosion) (frags : List Asteroid),
      (rockA.explode sampleEnv ⟨[Obj.asteroid rockA]⟩ Vec3.one Vec3.one 3 sampleRng).1.objects =
        [Obj.asteroid rockA] ++ Obj.explosion e :: frags.map Obj.asteroid ∧
      (frags.length : Int) = 3 ∧
      ∀ a ∈ frags,
        a.position = rockA.position ∧ a.rotMomentum = rockA.rotMomentum ∧
        a.scale = ⟨rockA.scale.x / (((3 : Int) : ℚ) / 2), rockA.scale.y / (((3 : Int) : ℚ) / 2),
          rockA.scale.z / (((3 : Int) : ℚ) / 2)⟩ ∧
        ∃ px py : ℚ, -3 ≤ px ∧ px ≤ 3 ∧ -5 ≤ py ∧ py ≤ 0 ∧
          a.speed = ⟨rockA.speed.x + px, rockA.speed.y + py, rockA.speed.z + 0⟩ :=
  fragment_attributes rockA sampleEnv ⟨[Obj.asteroid rockA]⟩ Vec3.one Vec3.one 3 sampleRng
    (by decide)

/-! ## Size of the fragments -/

/-- A positive piece count that the code passes to explode is 3. -/
theorem Asteroid.passesCount_pos (self : Asteroid) (n : Int) (h : self.passesCount n)
    (hn : 0 < n) : n = 3 := by
  rcases h with h | h
  · rw [h]
    unfold Asteroid.pieceCount at h ⊢
    split
    · rename_i hs
      rw [if_pos hs] at h
      omega
    · rfl
  · omega

/-- A fragment of a parent with strictly positive scale, for the piece count 3, is
smaller than the parent on every axis. -/
theorem Asteroid.fragmentsFrom_smaller (self : Asteroid) (env : Env) (k : Nat) (rng : Rng)
    (hpos : self.scale.positive) (a : Asteroid) (ha : a ∈ self.fragmentsFrom env 3 k rng) :
    a.scale.x < self.scale.x ∧ a.scale.y < self.scale.y ∧ a.scale.z < self.scale.z := by
  have hsc := Asteroid.fragmentsFrom_scale self env 3 k rng a ha
  obtain ⟨hx, hy, hz⟩ := hpos
  have h1 : a.scale.x = self.scale.x / (3 / 2) := by rw [hsc]; simp [Vec3.sdiv]
  have h2 : a.scale.y = self.scale.y / (3 / 2) := by rw [hsc]; simp [Vec3.sdiv]
  have h3 : a.scale.z = self.scale.z / (3 / 2) := by rw [hsc]; simp [Vec3.sdiv]
  rw [h1, h2, h3]
  have hq : (0 : ℚ) < 3 / 2 := by norm_num
  refine ⟨?_, ?_, ?_⟩ <;> rw [div_lt_iff₀ hq] <;> linarith

/-- C14: fragments are smaller than the parent. For every positive piece count that the
code passes to explode (update passes 3 or 0, onClick passes 0) and every parent with
strictly positive scale, every fragment that explode appends has a scale strictly smaller
than the parent's on every axis; so has every fragment that an update appends. -/
theorem fragments_smaller (self : Asteroid) (env : Env) (scene : Scene) (c s : Vec3)
    (n : Int) (rng : Rng) (selfIdx : Nat) (scene2 : Scene) (dt : ℚ) (rng2 : Rng)
    (hcall : self.passesCount n) (hn : 0 < n) (hpos : self.scale.positive) :
    (∀ a : Asteroid,
        Obj.asteroid a ∈ Scene.added scene (self.explode env scene c s n rng).1 →
        a.scale.x < self.scale.x ∧ a.scale.y < self.scale.y ∧ a.scale.z < self.scale.z) ∧
      (∀ a : Asteroid,
        Obj.asteroid a ∈ Scene.added scene2 (self.update selfIdx env scene2 dt rng2).scene →
        a.scale.x < self.scale.x ∧ a.scale.y < self.scale.y ∧ a.scale.z < self.scale.z) := by
  have h3 : n = 3 := Asteroid.passesCount_pos self n hcall hn
  subst h3
  constructor
  · intro a ha
    rw [Scene.added_of_append scene _ _ _
      (Asteroid.explode_objects self env scene c s 3 rng) rfl] at ha
    exact Asteroid.fragmentsFrom_smaller self env _ rng hpos a (by simpa using ha)
  · intro a ha
    have hmem : Obj.asteroid a ∈
        Scene.added scene2 (self.update selfIdx env scene2 dt rng2).scene := ha
    by_cases hexp : (self.integrate dt).expired
    · rw [Asteroid.update_of_expired self selfIdx env scene2 dt rng2 hexp] at hmem
      simp [Scene.added] at hmem
    · by_cases hcol : (self.integrate dt).collides selfIdx scene2
      · obtain ⟨-, -, e, hadded⟩ :=
          Asteroid.update_collides_added self selfIdx env scene2 dt rng2 hexp hcol
        rw [hadded] at hmem
        rcases lt_or_le self.scale.y (1 / 2) with hs | hs
        · rw [Asteroid.pieceCount_small (self.integrate dt) hs] at hmem
          simp [Asteroid.fragmentsFrom] at hmem
        · rw [Asteroid.pieceCount_large (self.integrate dt) hs] at hmem
          exact Asteroid.fragmentsFrom_smaller (self.integrate dt) env _ rng2 hpos a
            (by simpa using hmem)
      · rw [Asteroid.update_of_not_collides self selfIdx env scene2 dt rng2 hexp hcol] at hmem
        simp [Scene.added] at hmem

/-- RockA has strictly positive scale. -/
theorem rockA_scale_positive : rockA.scale.positive := by
  norm_num [Vec3.positive, rockA, sampleAsteroid, Vec3.one]

/-- Witness of C14: rockA, of scale (1, 1, 1) and so given the piece count 3 by update,
explodes into three pieces; the first of them is smaller than rockA on every axis. -/
theorem fragments_smaller_witness :
    (rockA.fragment sampleEnv 3 sampleRng).1.scale.x < rockA.scale.x ∧
      (rockA.fragment sampleEnv 3 sampleRng).1.scale.y < rockA.scale.y ∧
      (rockA.fragment sampleEnv 3 sampleRng).1.scale.z < rockA.scale.z :=
  (fragments_smaller rockA sampleEnv ⟨[Obj.asteroid rockA]⟩ Vec3.one Vec3.one 3 sampleRng
    0 ⟨[Obj.asteroid rockA]⟩ (1 / 10) sampleRng
    (Or.inl (by norm_num [Asteroid.pieceCount, rockA, sampleAsteroid, Vec3.one]))
    (by decide) rockA_scale_positive).1 (rockA.fragment sampleEnv 3 sampleRng).1
    (by
      rw [Scene.added_of_append _ _ _ _
        (Asteroid.explode_objects rockA sampleEnv ⟨[Obj.asteroid rockA]⟩ Vec3.one Vec3.one 3
          sampleRng) rfl]
      have h3 : (3 : Int).toNat = 3 := rfl
      rw [h3]
      simp [Asteroid.fragmentsFrom])

/-! ## Scale invariant -/

theorem Asteroid.update_scale_eq (self : Asteroid) (selfIdx : Nat) (env : Env)
    (scene : Scene) (dt : ℚ) (rng : Rng) :
    (self.update selfIdx env scene dt rng).asteroid.scale = self.scale := by
  unfold Asteroid.update
  simp only
  split
  · rfl
  · split <;> rfl

/-- The objects appended by any update are either none or one explosion followed by the
fragments of the integrated asteroid for its piece count. -/
theorem Asteroid.update_added_cases (self : Asteroid) (selfIdx : Nat) (env : Env)
    (scene : Scene) (dt : ℚ) (rng : Rng) :
    Scene.added scene (self.update selfIdx env scene dt rng).scene = [] ∨
      ∃ e : Explosion, Scene.added scene (self.update selfIdx env scene dt rng).scene =
        Obj.explosion e ::
          ((self.integrate dt).fragmentsFrom env (self.integrate dt).pieceCount
            (self.integrate dt).pieceCount.toNat rng).map Obj.asteroid := by
  by_cases hexp : (self.integrate dt).expired
  · left
    rw [Asteroid.update_of_expired self selfIdx env scene dt rng hexp]
    simp [Scene.added]
  · by_cases hcol : (self.integrate dt).collides selfIdx scene
    · right
      exact (Asteroid.update_collides_added self selfIdx env scene dt rng hexp hcol).2.2
    · left
      rw [Asteroid.update_of_not_collides self selfIdx env scene dt rng hexp hcol]
      simp [Scene.added]

/-- A fragment of a parent with strictly positive scale has strictly positive scale. -/
theorem Asteroid.fragmentsFrom_positive (self : Asteroid) (env : Env) (pieces : Int)
    (rng : Rng) (hpos : self.scale.positive) (a : Asteroid)
    (ha : a ∈ self.fragmentsFrom env pieces pieces.toNat rng) : a.scale.positive := by
  have hn : 0 < pieces := by
    by_contra hle
    have h0 : pieces.toNat = 0 := Int.toNat_eq_zero.2 (not_lt.1 hle)
    rw [h0] at ha
    simp [Asteroid.fragmentsFrom] at ha
  have hq : (0 : ℚ) < (pieces : ℚ) / 2 := by
    have : (0 : ℚ) < (pieces : ℚ) := by exact_mod_cast hn
    linarith
  rw [Asteroid.fragmentsFrom_scale self env pieces pieces.toNat rng a ha]
  obtain ⟨hx, hy, hz⟩ := hpos
  exact ⟨div_pos hx hq, div_pos hy hq, div_pos hz hq⟩

/-- The factor by which the constructor multiplies the base scale lies in [1.1, 3]. -/
theorem Asteroid.new_scale (env : Env) (rng : Rng) :
    ∃ k : ℚ, 11 / 10 ≤ k ∧ k ≤ 3 ∧
      (Asteroid.new env rng).1.scale = env.objectInit.scale.smul k := by
  refine ⟨(rng.lin 0).val * (3 - 11 / 10) + 11 / 10, ?_, ?_, rfl⟩
  · have := (rng.lin 0).nonneg
    linarith
  · have := (rng.lin 0).le_one
    linarith

/-- C15: strictly positive scale on all axes is preserved by every asteroid operation.
update and onClick leave the asteroid's scale as it was; a freshly constructed asteroid
has the base scale, as the Object constructor leaves it, times a factor in [1.1, 3.0],
hence strictly positive for a strictly positive base scale; and every fragment appended
by explode, or by a colliding update, of a parent with strictly positive scale has
strictly positive scale on all axes. -/
theorem scale_positivity (self : Asteroid) (selfIdx : Nat) (env : Env) (scene : Scene)
    (dt : ℚ) (rng : Rng) (c s : Vec3) (n : Int)
    (hpos : self.scale.positive) (hbase : env.objectInit.scale.positive) :
    ((self.update selfIdx env scene dt rng).asteroid.scale = self.scale ∧
        (self.update selfIdx env scene dt rng).asteroid.scale.positive) ∧
      ((self.onClick env scene rng).1.scale = self.scale ∧
        (self.onClick env scene rng).1.scale.positive) ∧
      ((∃ k : ℚ, 11 / 10 ≤ k ∧ k ≤ 3 ∧
          (Asteroid.new env rng).1.scale = env.objectInit.scale.smul k) ∧
        (Asteroid.new env rng).1.scale.positive) ∧
      (∀ a : Asteroid,
        Obj.asteroid a ∈ Scene.added scene (self.explode env scene c s n rng).1 →
          a.scale.positive) ∧
      (∀ a : Asteroid,
        Obj.asteroid a ∈ Scene.added scene (self.update selfIdx env scene dt rng).scene →
          a.scale.positive) := by
  refine ⟨⟨Asteroid.update_scale_eq _ _ _ _ _ _, ?_⟩, ⟨rfl, hpos⟩,
    ⟨Asteroid.new_scale env rng, ?_⟩, ?_, ?_⟩
  · rw [Asteroid.update_scale_eq]
    exact hpos
  · obtain ⟨k, hk1, -, hk⟩ := Asteroid.new_scale env rng
    rw [hk]
    obtain ⟨hx, hy, hz⟩ := hbase
    have hk0 : (0 : ℚ) < k := by linarith
    exact ⟨mul_pos hx hk0, mul_pos hy hk0, mul_pos hz hk0⟩
  · intro a ha
    rw [Scene.added_of_append scene _ _ _
      (Asteroid.explode_objects self env scene c s n rng) rfl] at ha
    exact Asteroid.fragmentsFrom_positive self env n rng hpos a (by simpa using ha)
  · intro a ha
    rcases Asteroid.update_added_cases self selfIdx env scene dt rng with h | ⟨e, h⟩
    · rw [h] at ha
      simp at ha
    · rw [h] at ha
      exact Asteroid.fragmentsFrom_positive (self.integrate dt) env _ rng hpos a
        (by simpa using ha)

/-- Witness of C15: rockA, of scale (1, 1, 1), in the sample environment, whose base
scale is (1, 1, 1). -/
theorem scale_positivity_witness :
    ((rockA.update 0 sampleEnv ⟨[Obj.asteroid rockA, Obj.asteroid rockB]⟩ (1 / 10)
          sampleRng).asteroid.scale = rockA.scale ∧
        (rockA.update 0 sampleEnv ⟨[Obj.asteroid rockA, Obj.asteroid rockB]⟩ (1 / 10)
          sampleRng).asteroid.scale.positive) ∧
      ((rockA.onClick sampleEnv ⟨[Obj.asteroid rockA, Obj.asteroid rockB]⟩
          sampleRng).1.scale = rockA.scale ∧
        (rockA.onClick sampleEnv ⟨[Obj.asteroid rockA, Obj.asteroid rockB]⟩
          sampleRng).1.scale.positive) ∧
      ((∃ k : ℚ, 11 / 10 ≤ k ∧ k ≤ 3 ∧
          (Asteroid.new sampleEnv sampleRng).1.scale = sampleEnv.objectInit.scale.smul k) ∧
        (Asteroid.new sampleEnv sampleRng).1.scale.positive) ∧
      (∀ a : Asteroid,
        Obj.asteroid a ∈ Scene.added ⟨[Obj.asteroid rockA, Obj.asteroid rockB]⟩
          (rockA.explode sampleEnv ⟨[Obj.asteroid rockA, Obj.asteroid rockB]⟩ Vec3.one
            Vec3.one 3 sampleRng).1 →
          a.scale.positive) ∧
      (∀ a : Asteroid,
        Obj.asteroid a ∈ Scene.added ⟨[Obj.asteroid rockA, Obj.asteroid rockB]⟩
          (rockA.update 0 sampleEnv ⟨[Obj.asteroid rockA, Obj.asteroid rockB]⟩ (1 / 10)
            sampleRng).scene →
          a.scale.positive) :=
  scale_positivity rockA 0 sampleEnv ⟨[Obj.asteroid rockA, Obj.asteroid rockB]⟩ (1 / 10)
    sampleRng Vec3.one Vec3.one 3 rockA_scale_positive
    (by norm_num [Vec3.positive, sampleEnv, Vec3.one])

/-! ## No division by a zero factor -/

theorem Asteroid.fragmentChecked_eq (self : Asteroid) (env : Env) (pieces : Int) (rng : Rng)
    (h : (pieces : ℚ) / 2 ≠ 0) :
    self.fragmentChecked env pieces rng = some (self.fragment env pieces rng) := by
  simp only [Asteroid.fragmentChecked, Asteroid.fragment, Vec3.sdivChecked, h, if_false]

theorem Asteroid.spawnPiecesChecked_eq (self : Asteroid) (env : Env) (pieces : Int) (n : Nat)
    (scene : Scene) (rng : Rng) (h : n ≠ 0 → (pieces : ℚ) / 2 ≠ 0) :
    self.spawnPiecesChecked env pieces n scene rng =
      some (self.spawnPieces env pieces n scene rng) := by
  induction n generalizing scene rng with
  | zero => rfl
  | succ n ih =>
    have hf : (pieces : ℚ) / 2 ≠ 0 := h (Nat.succ_ne_zero n)
    simp only [Asteroid.spawnPiecesChecked, Asteroid.spawnPieces,
      Asteroid.fragmentChecked_eq self env pieces rng hf]
    exact ih _ _ (fun _ => hf)

/-- The factor of a loop turn is at least 1/2: the loop turns only for pieces >= 1. -/
theorem Asteroid.factor_ge_half (pieces : Int) (h : pieces.toNat ≠ 0) :
    (1 / 2 : ℚ) ≤ (pieces : ℚ) / 2 := by
  have hp : 1 ≤ pieces := by
    by_contra hlt
    exact h (Int.toNat_eq_zero.2 (by omega))
  have : (1 : ℚ) ≤ (pieces : ℚ) := by exact_mod_cast hp
  linarith

/-- C16: explode never divides by a zero factor. With the division made fallible, explode
succeeds for every piece count and does what explode does; the loop, where alone the
factor pieces / 2 is computed, turns only for pieces >= 1, where the factor is at least
1/2 and so not zero; and for pieces <= 0, as passed by onClick and by update for an
asteroid with scale.y < 0.5, explode appends the Explosion and nothing else. -/
theorem explode_no_zero_division (self : Asteroid) (env : Env) (scene : Scene) (c s : Vec3)
    (pieces : Int) (rng : Rng) :
    self.explodeChecked env scene c s pieces rng = some (self.explode env scene c s pieces rng) ∧
      (pieces.toNat ≠ 0 → 1 ≤ pieces ∧ (1 / 2 : ℚ) ≤ (pieces : ℚ) / 2 ∧
        (pieces : ℚ) / 2 ≠ 0 ∧
        self.fragmentChecked env pieces rng = some (self.fragment env pieces rng)) ∧
      (pieces ≤ 0 →
        self.spawnPiecesChecked env pieces pieces.toNat scene rng = some (scene, rng) ∧
        (self.explode env scene c s pieces rng).1.objects =
          scene.objects ++ [Obj.explosion (self.explosionAt env c s)]) ∧
      (self.onClick env scene rng).2.1 =
        (self.explode env scene self.position ⟨10, 10, 10⟩ 0 rng).1 ∧
      (self.scale.y < 1 / 2 → self.pieceCount = 0) := by
  have hfac : pieces.toNat ≠ 0 → (pieces : ℚ) / 2 ≠ 0 := by
    intro h
    have := Asteroid.factor_ge_half pieces h
    intro h0
    rw [h0] at this
    norm_num at this
  refine ⟨?_, ?_, ?_, rfl, Asteroid.pieceCount_small self⟩
  · simp only [Asteroid.explodeChecked, Asteroid.explode]
    exact Asteroid.spawnPiecesChecked_eq self env pieces pieces.toNat _ rng hfac
  · intro h
    refine ⟨?_, Asteroid.factor_ge_half pieces h, hfac h,
      Asteroid.fragmentChecked_eq self env pieces rng (hfac h)⟩
    by_contra hlt
    exact h (Int.toNat_eq_zero.2 (by omega))
  · intro h
    have h0 : pieces.toNat = 0 := Int.toNat_eq_zero.2 h
    refine ⟨by rw [h0]; rfl, ?_⟩
    rw [Asteroid.explode_objects, h0]
    rfl

/-! ## Order of the scan, non-participants, frame of the scene -/

/-- The slots of the scene after the candidate obj of slot j has been marked: slot j
holds the candidate, marked when it is a projectile, every other slot is as it was. -/
theorem Scene.marked_getElem? (scene : Scene) (j : Nat) (obj : Obj)
    (hj : scene.objects[j]? = some obj) :
    (scene.marked j obj).objects[j]? = some obj.markedIfProjectile ∧
      ∀ k, k ≠ j → (scene.marked j obj).objects[k]? = scene.objects[k]? := by
  have hjlt : j < scene.objects.length := (List.getElem?_eq_some.1 hj).1
  unfold Scene.marked Obj.markedIfProjectile
  cases hp : obj.asProjectile with
  | none => exact ⟨hj, fun _ _ => rfl⟩
  | some p =>
    constructor
    · simp [Scene.destroyAt, List.getElem?_set, hjlt]
    · intro k hk
      simp [Scene.destroyAt, List.getElem?_set, Ne.symm hk]

/-- The old slots after a colliding update whose first candidate is obj in slot j. -/
theorem Asteroid.update_firstHit_slots (self : Asteroid) (selfIdx : Nat) (env : Env)
    (scene : Scene) (dt : ℚ) (rng : Rng) (j : Nat) (obj : Obj)
    (hne : ¬ (self.integrate dt).expired)
    (hfirst : (self.integrate dt).firstHitAt selfIdx scene j obj) :
    (self.update selfIdx env scene dt rng).scene.objects[j]? = some obj.markedIfProjectile ∧
      ∀ k, k < scene.objects.length → k ≠ j →
        (self.update selfIdx env scene dt rng).scene.objects[k]? = scene.objects[k]? := by
  obtain ⟨-, hobjs⟩ :=
    Asteroid.update_firstHit_objects self selfIdx env scene dt rng j obj hne hfirst
  have hjlt : j < scene.objects.length := (List.getElem?_eq_some.1 hfirst.1).1
  obtain ⟨hm1, hm2⟩ := Scene.marked_getElem? scene j obj hfirst.1
  constructor
  · rw [hobjs, List.getElem?_append_left (by rw [Scene.marked_length]; exact hjlt)]
    exact hm1
  · intro k hk hkj
    rw [hobjs, List.getElem?_append_left (by rw [Scene.marked_length]; exact hk)]
    exact hm2 k hkj

/-- C17: the first candidate that passes the tests, in the order of scene.objects, wins.
When obj in slot j is that first candidate, whatever candidates pass the tests after it,
update returns false; the one Explosion appended has its centre and scale computed from
obj; slot j holds obj, marked destroyed when it is a projectile; and every other slot of
the scene holds what it held before, so that no other projectile is marked and later
candidates are untouched. -/
theorem update_first_candidate_wins (self : Asteroid) (selfIdx : Nat) (env : Env)
    (scene : Scene) (dt : ℚ) (rng : Rng) (j : Nat) (obj : Obj)
    (hne : ¬ (self.integrate dt).expired)
    (hfirst : (self.integrate dt).firstHitAt selfIdx scene j obj) :
    (self.update selfIdx env scene dt rng).alive = false ∧
      (∃ (e : Explosion) (frags : List Asteroid),
        Scene.added scene (self.update selfIdx env scene dt rng).scene =
          Obj.explosion e :: frags.map Obj.asteroid ∧
        e.position = (obj.position + (self.integrate dt).position).sdiv 2 ∧
        e.scale = (obj.scale + self.scale).sdiv 2) ∧
      ((Scene.added scene (self.update selfIdx env scene dt rng).scene).filter
        Obj.isExplosion).length = 1 ∧
      (self.update selfIdx env scene dt rng).scene.objects[j]? =
        some obj.markedIfProjectile ∧
      ∀ k, k < scene.objects.length → k ≠ j →
        (self.update selfIdx env scene dt rng).scene.objects[k]? = scene.objects[k]? := by
  obtain ⟨halive, hobjs⟩ :=
    Asteroid.update_firstHit_objects self selfIdx env scene dt rng j obj hne hfirst
  have hadded := Scene.added_of_append scene _ _ _ hobjs (Scene.marked_length _ _ _)
  obtain ⟨hs1, hs2⟩ :=
    Asteroid.update_firstHit_slots self selfIdx env scene dt rng j obj hne hfirst
  refine ⟨halive, ⟨_, _, hadded, rfl, rfl⟩, ?_, hs1, hs2⟩
  rw [hadded]
  simp [List.filter, Obj.isExplosion, Obj.filter_isExplosion_asteroids]

/-- Witness of C17: rockA in slot 0; the bullet in slot 1, rockB in slot 2 and a second
bullet in slot 3 all pass the tests; the bullet of slot 1 wins. -/
theorem update_first_candidate_wins_witness :
    (rockA.update 0 sampleEnv
        ⟨[Obj.asteroid rockA, Obj.projectile bullet, Obj.asteroid rockB,
          Obj.projectile bullet]⟩ (1 / 10) sampleRng).alive = false ∧
      (∃ (e : Explosion) (frags : List Asteroid),
        Scene.added
            ⟨[Obj.asteroid rockA, Obj.projectile bullet, Obj.asteroid rockB,
              Obj.projectile bullet]⟩
            (rockA.update 0 sampleEnv
              ⟨[Obj.asteroid rockA, Obj.projectile bullet, Obj.asteroid rockB,
                Obj.projectile bullet]⟩ (1 / 10) sampleRng).scene =
          Obj.explosion e :: frags.map Obj.asteroid ∧
        e.position =
          ((Obj.projectile bullet).position + (rockA.integrate (1 / 10)).position).sdiv 2 ∧
        e.scale = ((Obj.projectile bullet).scale + rockA.scale).sdiv 2) ∧
      ((Scene.added
          ⟨[Obj.asteroid rockA, Obj.projectile bullet, Obj.asteroid rockB,
            Obj.projectile bullet]⟩
          (rockA.update 0 sampleEnv
            ⟨[Obj.asteroid rockA, Obj.projectile bullet, Obj.asteroid rockB,
              Obj.projectile bullet]⟩ (1 / 10) sampleRng).scene).filter
        Obj.isExplosion).length = 1 ∧
      (rockA.update 0 sampleEnv
        ⟨[Obj.asteroid rockA, Obj.projectile bullet, Obj.asteroid rockB,
          Obj.projectile bullet]⟩ (1 / 10) sampleRng).scene.objects[1]? =
        some (Obj.projectile bullet).markedIfProjectile ∧
      ∀ k, k < 4 → k ≠ 1 →
        (rockA.update 0 sampleEnv
          ⟨[Obj.asteroid rockA, Obj.projectile bullet, Obj.asteroid rockB,
            Obj.projectile bullet]⟩ (1 / 10) sampleRng).scene.objects[k]? =
        [Obj.asteroid rockA, Obj.projectile bullet, Obj.asteroid rockB,
          Obj.projectile bullet][k]? :=
  update_first_candidate_wins rockA 0 sampleEnv
    ⟨[Obj.asteroid rockA, Obj.projectile bullet, Obj.asteroid rockB,
      Obj.projectile bullet]⟩ (1 / 10) sampleRng 1 (Obj.projectile bullet)
    rockA_not_expired
    ⟨rfl, by decide, rockA_hits_bullet, fun k _ hk _ => Or.inl (by omega)⟩

/-- C18: an object that is neither an Asteroid nor a Projectile never passes the tests of
the scan, wherever it is; and for a non-expiring asteroid in a scene whose other objects
are all such objects, update returns true and leaves the scene as it was. -/
theorem update_skips_nonparticipants (self : Asteroid) (selfIdx : Nat) (env : Env)
    (scene : Scene) (dt : ℚ) (rng : Rng)
    (hne : ¬ (self.integrate dt).expired)
    (hothers : ∀ k o, scene.objects[k]? = some o → k ≠ selfIdx →
      o.asAsteroid = none ∧ o.asProjectile = none) :
    (∀ o : Obj, o.asAsteroid = none ∧ o.asProjectile = none →
        ¬ (self.integrate dt).hits o) ∧
      (self.update selfIdx env scene dt rng).alive = true ∧
      (self.update selfIdx env scene dt rng).scene = scene := by
  have hno : ¬ (self.integrate dt).collides selfIdx scene := by
    rintro ⟨k, o, hk, hks, hhit⟩
    exact Asteroid.not_hits_of_nonparticipant _ o (hothers k o hk hks) hhit
  refine ⟨fun o ho => Asteroid.not_hits_of_nonparticipant _ o ho, ?_⟩
  rw [Asteroid.update_of_not_collides self selfIdx env scene dt rng hne hno]
  exact ⟨rfl, rfl⟩

/-- Witness of C18: rockB in slot 0, with an explosion and an object of another kind,
both at rockB's own position, in slots 1 and 2. -/
theorem update_skips_nonparticipants_witness :
    (∀ o : Obj, o.asAsteroid = none ∧ o.asProjectile = none →
        ¬ (rockB.integrate (1 / 10)).hits o) ∧
      (rockB.update 0 sampleEnv
        ⟨[Obj.asteroid rockB, Obj.explosion { blast with position := ⟨1, 0, 0⟩ },
          Obj.other ⟨⟨1, 0, 0⟩, Vec3.zero, Vec3.one, ⟨Vec3.zero, Vec3.zero, Vec3.one⟩⟩]⟩
        (1 / 10) sampleRng).alive = true ∧
      (rockB.update 0 sampleEnv
        ⟨[Obj.asteroid rockB, Obj.explosion { blast with position := ⟨1, 0, 0⟩ },
          Obj.other ⟨⟨1, 0, 0⟩, Vec3.zero, Vec3.one, ⟨Vec3.zero, Vec3.zero, Vec3.one⟩⟩]⟩
        (1 / 10) sampleRng).scene =
        ⟨[Obj.asteroid rockB, Obj.explosion { blast with position := ⟨1, 0, 0⟩ },
          Obj.other ⟨⟨1, 0, 0⟩, Vec3.zero, Vec3.one, ⟨Vec3.zero, Vec3.zero, Vec3.one⟩⟩]⟩ :=
  update_skips_nonparticipants rockB 0 sampleEnv
    ⟨[Obj.asteroid rockB, Obj.explosion { blast with position := ⟨1, 0, 0⟩ },
      Obj.other ⟨⟨1, 0, 0⟩, Vec3.zero, Vec3.one, ⟨Vec3.zero, Vec3.zero, Vec3.one⟩⟩]⟩
    (1 / 10) sampleRng rockB_not_expired
    (by
      intro k o hk hks
      have hlt : k < 3 := (List.getElem?_eq_some.1 hk).1
      have hk12 : k = 1 ∨ k = 2 := by omega
      rcases hk12 with rfl | rfl
      · have ho : o = Obj.explosion { blast with position := ⟨1, 0, 0⟩ } := by
          simpa using hk.symm
        subst ho
        exact ⟨rfl, rfl⟩
      · have ho : o = Obj.other
            ⟨⟨1, 0, 0⟩, Vec3.zero, Vec3.one, ⟨Vec3.zero, Vec3.zero, Vec3.one⟩⟩ := by
          simpa using hk.symm
        subst ho
        exact ⟨rfl, rfl⟩)

/-- Every slot of the scene holds after an update the object it held before. -/
theorem Asteroid.update_slots_kept (self : Asteroid) (selfIdx : Nat) (env : Env)
    (scene : Scene) (dt : ℚ) (rng : Rng) (k : Nat) (o : Obj)
    (hk : scene.objects[k]? = some o) :
    ∃ o' : Obj, (self.update selfIdx env scene dt rng).scene.objects[k]? = some o' ∧
      Obj.sameObject o o' := by
  by_cases hexp : (self.integrate dt).expired
  · rw [Asteroid.update_of_expired self selfIdx env scene dt rng hexp]
    exact ⟨o, hk, Or.inl rfl⟩
  · by_cases hcol : (self.integrate dt).collides selfIdx scene
    · obtain ⟨j, obj, hfirst⟩ := Asteroid.exists_firstHit _ selfIdx scene hcol
      obtain ⟨hs1, hs2⟩ :=
        Asteroid.update_firstHit_slots self selfIdx env scene dt rng j obj hexp hfirst
      by_cases hkj : k = j
      · subst hkj
        have ho : obj = o := by
          have := hfirst.1
          rw [hk] at this
          exact (Option.some.inj this).symm
        subst ho
        exact ⟨_, hs1, Or.inr rfl⟩
      · refine ⟨o, ?_, Or.inl rfl⟩
        rw [hs2 k (List.getElem?_eq_some.1 hk).1 hkj]
        exact hk
    · rw [Asteroid.update_of_not_collides self selfIdx env scene dt rng hexp hcol]
      exact ⟨o, hk, Or.inl rfl⟩

/-- C19: the scene list is append-only under the asteroid's operations. explode and
onClick leave the old sequence of objects in front of what they append. update leaves
every old slot holding the object it held (the one projectile it may have hit being that
projectile, marked) and appends behind them; the number of objects it appends is 0 when
the asteroid expires or survives, 1 when it collides with scale.y < 0.5 and 4 when it
collides with scale.y >= 0.5; and it returns true only when it appended nothing. -/
theorem scene_append_only (self : Asteroid) (selfIdx : Nat) (env : Env) (scene : Scene)
    (dt : ℚ) (rng : Rng) (c s : Vec3) (n : Int) :
    (∃ extra, (self.explode env scene c s n rng).1.objects = scene.objects ++ extra) ∧
      (∃ extra, (self.onClick env scene rng).2.1.objects = scene.objects ++ extra) ∧
      (∀ (k : Nat) (o : Obj), scene.objects[k]? = some o →
        ∃ o' : Obj, (self.update selfIdx env scene dt rng).scene.objects[k]? = some o' ∧
          Obj.sameObject o o') ∧
      (self.update selfIdx env scene dt rng).scene.objects.length =
        scene.objects.length +
          (Scene.added scene (self.update selfIdx env scene dt rng).scene).length ∧
      ((Scene.added scene (self.update selfIdx env scene dt rng).scene).length = 0 ∨
        (Scene.added scene (self.update selfIdx env scene dt rng).scene).length = 1 ∨
        (Scene.added scene (self.update selfIdx env scene dt rng).scene).length = 4) ∧
      ((self.integrate dt).expired →
        (self.update selfIdx env scene dt rng).alive = false ∧
        (Scene.added scene (self.update selfIdx env scene dt rng).scene).length = 0) ∧
      (¬ (self.integrate dt).expired → ¬ (self.integrate dt).collides selfIdx scene →
        (self.update selfIdx env scene dt rng).alive = true ∧
        (Scene.added scene (self.update selfIdx env scene dt rng).scene).length = 0) ∧
      (¬ (self.integrate dt).expired → (self.integrate dt).collides selfIdx scene →
        self.scale.y < 1 / 2 →
        (self.update selfIdx env scene dt rng).alive = false ∧
        (Scene.added scene (self.update selfIdx env scene dt rng).scene).length = 1) ∧
      (¬ (self.integrate dt).expired → (self.integrate dt).collides selfIdx scene →
        1 / 2 ≤ self.scale.y →
        (self.update selfIdx env scene dt rng).alive = false ∧
        (Scene.added scene (self.update selfIdx env scene dt rng).scene).length = 4) ∧
      ((self.update selfIdx env scene dt rng).alive = true →
        (self.update selfIdx env scene dt rng).scene = scene) := by
  have hE : (self.integrate dt).expired →
      (self.update selfIdx env scene dt rng).alive = false ∧
      (Scene.added scene (self.update selfIdx env scene dt rng).scene).length = 0 := by
    intro hexp
    rw [Asteroid.update_of_expired self selfIdx env scene dt rng hexp]
    exact ⟨rfl, by simp [Scene.added]⟩
  have hS : ¬ (self.integrate dt).expired → ¬ (self.integrate dt).collides selfIdx scene →
      (self.update selfIdx env scene dt rng).alive = true ∧
      (Scene.added scene (self.update selfIdx env scene dt rng).scene).length = 0 := by
    intro hexp hcol
    rw [Asteroid.update_of_not_collides self selfIdx env scene dt rng hexp hcol]
    exact ⟨rfl, by simp [Scene.added]⟩
  have hC : ¬ (self.integrate dt).expired → (self.integrate dt).collides selfIdx scene →
      (self.update selfIdx env scene dt rng).alive = false ∧
      (Scene.added scene (self.update selfIdx env scene dt rng).scene).length =
        1 + (self.integrate dt).pieceCount.toNat := by
    intro hexp hcol
    obtain ⟨halive, -, e, hadded⟩ :=
      Asteroid.update_collides_added self selfIdx env scene dt rng hexp hcol
    refine ⟨halive, ?_⟩
    rw [hadded]
    simp only [List.length_cons, List.length_map, Asteroid.fragmentsFrom_length]
    omega
  have hC1 : ¬ (self.integrate dt).expired → (self.integrate dt).collides selfIdx scene →
      self.scale.y < 1 / 2 →
      (self.update selfIdx env scene dt rng).alive = false ∧
      (Scene.added scene (self.update selfIdx env scene dt rng).scene).length = 1 := by
    intro hexp hcol hsmall
    obtain ⟨h1, h2⟩ := hC hexp hcol
    rw [Asteroid.pieceCount_small (self.integrate dt) hsmall] at h2
    exact ⟨h1, h2⟩
  have hC4 : ¬ (self.integrate dt).expired → (self.integrate dt).collides selfIdx scene →
      1 / 2 ≤ self.scale.y →
      (self.update selfIdx env scene dt rng).alive = false ∧
      (Scene.added scene (self.update selfIdx env scene dt rng).scene).length = 4 := by
    intro hexp hcol hbig
    obtain ⟨h1, h2⟩ := hC hexp hcol
    rw [Asteroid.pieceCount_large (self.integrate dt) hbig] at h2
    exact ⟨h1, h2⟩
  have hlen : scene.objects.length ≤
      (self.update selfIdx env scene dt rng).scene.objects.length := by
    by_cases hexp : (self.integrate dt).expired
    · rw [Asteroid.update_of_expired self selfIdx env scene dt rng hexp]
    · by_cases hcol : (self.integrate dt).collides selfIdx scene
      · have := (Asteroid.update_collides_added self selfIdx env scene dt rng hexp hcol).2.1
        omega
      · rw [Asteroid.update_of_not_collides self selfIdx env scene dt rng hexp hcol]
  refine ⟨⟨_, Asteroid.explode_objects self env scene c s n rng⟩,
    ⟨_, Asteroid.explode_objects self env scene self.position ⟨10, 10, 10⟩ 0 rng⟩,
    fun k o hk => Asteroid.update_slots_kept self selfIdx env scene dt rng k o hk,
    ?_, ?_, hE, hS, hC1, hC4, ?_⟩
  · unfold Scene.added
    rw [List.length_drop]
    omega
  · by_cases hexp : (self.integrate dt).expired
    · exact Or.inl (hE hexp).2
    · by_cases hcol : (self.integrate dt).collides selfIdx scene
      · rcases lt_or_le self.scale.y (1 / 2) with h | h
        · exact Or.inr (Or.inl (hC1 hexp hcol h).2)
        · exact Or.inr (Or.inr (hC4 hexp hcol h).2)
      · exact Or.inl (hS hexp hcol).2
  · intro htrue
    by_cases hexp : (self.integrate dt).expired
    · rw [(hE hexp).1] at htrue
      exact Bool.noConfusion htrue
    · by_cases hcol : (self.integrate dt).collides selfIdx scene
      · rw [(hC hexp hcol).1] at htrue
        exact Bool.noConfusion htrue
      · rw [Asteroid.update_of_not_collides self selfIdx env scene dt rng hexp hcol]

/-! ## Depth of the fragmentation -/

theorem Asteroid.runFrames_scale (self : Asteroid) (env : Env) (fs : List Frame) :
    (self.runFrames env fs).scale = self.scale := by
  induction fs generalizing self with
  | nil => rfl
  | cons f fs ih => simp only [Asteroid.runFrames, ih, Asteroid.update_scale_eq]

/-- An asteroid appended by an update comes from a parent with scale.y >= 1/2 and has the
parent's scale divided by 3/2. -/
theorem Asteroid.fragment_of_update (b : Asteroid) (selfIdx : Nat) (env : Env)
    (scene : Scene) (dt : ℚ) (rng : Rng) (c : Asteroid)
    (hc : Obj.asteroid c ∈ Scene.added scene (b.update selfIdx env scene dt rng).scene) :
    1 / 2 ≤ b.scale.y ∧ c.scale = b.scale.sdiv (3 / 2) := by
  rcases Asteroid.update_added_cases b selfIdx env scene dt rng with h | ⟨e, h⟩
  · rw [h] at hc
    simp at hc
  · rw [h] at hc
    have hmem : c ∈ (b.integrate dt).fragmentsFrom env (b.integrate dt).pieceCount
        (b.integrate dt).pieceCount.toNat rng := by
      simpa using hc
    rcases lt_or_le b.scale.y (1 / 2) with hs | hs
    · rw [Asteroid.pieceCount_small (b.integrate dt) hs] at hmem
      simp [Asteroid.fragmentsFrom] at hmem
    · rw [Asteroid.pieceCount_large (b.integrate dt) hs] at hmem
      have := Asteroid.fragmentsFrom_scale (b.integrate dt) env 3 _ rng c hmem
      refine ⟨hs, ?_⟩
      simpa [Asteroid.integrate_scale] using this

/-- An asteroid with scale.y < 1/2 never appends an asteroid. -/
theorem Asteroid.neverSplits_of_small (c : Asteroid) (env : Env) (h : c.scale.y < 1 / 2) :
    c.neverSplits env := by
  intro fs selfIdx scene dt rng d hd
  have h1 := (Asteroid.fragment_of_update _ selfIdx env scene dt rng d hd).1
  rw [Asteroid.runFrames_scale] at h1
  linarith

theorem Asteroid.Descendant.scale_y (env : Env) (k : Nat) (a c : Asteroid)
    (h : Asteroid.Descendant env k a c) : c.scale.y = a.scale.y / (3 / 2) ^ k := by
  induction h with
  | self a => simp
  | fragment k a b c fs selfIdx scene dt rng _ hc ih =>
    have h2 := (Asteroid.fragment_of_update _ selfIdx env scene dt rng c hc).2
    rw [Asteroid.runFrames_scale] at h2
    have h3 : c.scale.y = b.scale.y / (3 / 2) := by rw [h2]; rfl
    rw [h3, ih, pow_succ, div_div]

/-- C20: the depth of the fragmentation is bounded. A descendant of generation k of an
asteroid with scale.y = s has scale.y = s / 1.5^k; the descendants (of generation >= 1)
of an asteroid with scale.y < 0.75 never spawn a fragment; and for an asteroid with
scale.y <= 3.0 every descendant of generation >= 5 has scale.y < 0.5, is given the piece
count 0 by update and never spawns a fragment. -/
theorem fragmentation_depth_bounded (env : Env) (k : Nat) (a c : Asteroid)
    (hdesc : Asteroid.Descendant env k a c) :
    c.scale.y = a.scale.y / (3 / 2) ^ k ∧
      (a.scale.y < 3 / 4 → 1 ≤ k → c.scale.y < 1 / 2 ∧ c.neverSplits env) ∧
      (a.scale.y ≤ 3 → 5 ≤ k →
        c.scale.y < 1 / 2 ∧ c.pieceCount = 0 ∧ c.neverSplits env) := by
  have hsc := Asteroid.Descendant.scale_y env k a c hdesc
  have hpow : (0 : ℚ) < (3 / 2) ^ k := by positivity
  refine ⟨hsc, ?_, ?_⟩
  · intro ha hk
    have h1 : (3 / 2 : ℚ) ^ 1 ≤ (3 / 2) ^ k := pow_le_pow_right₀ (by norm_num) hk
    have hlt : c.scale.y < 1 / 2 := by
      rw [hsc, div_lt_iff₀ hpow]
      rw [pow_one] at h1
      linarith
    exact ⟨hlt, Asteroid.neverSplits_of_small c env hlt⟩
  · intro ha hk
    have h5 : (3 / 2 : ℚ) ^ 5 ≤ (3 / 2) ^ k := pow_le_pow_right₀ (by norm_num) hk
    have hlt : c.scale.y < 1 / 2 := by
      rw [hsc, div_lt_iff₀ hpow]
      norm_num at h5
      linarith
    exact ⟨hlt, Asteroid.pieceCount_small c hlt, Asteroid.neverSplits_of_small c env hlt⟩

/-- With frame time 0 the integration leaves the position where it was. -/
theorem Asteroid.integrate_zero_position (a : Asteroid) :
    (a.integrate 0).position = a.position := by
  simp [Asteroid.integrate, Vec3.smul]

theorem sampleChild_age (a : Asteroid) : (sampleChild a).age = 0 := rfl

theorem sampleChild_position (a : Asteroid) : (sampleChild a).position = a.position :=
  Asteroid.integrate_zero_position a

theorem sampleChild_scale_y (a : Asteroid) : (sampleChild a).scale.y = a.scale.y / (3 / 2) := by
  have h := Asteroid.fragment_scale (a.integrate 0) sampleEnv 3 sampleRng
  have h2 : (sampleChild a).scale = a.scale.sdiv (3 / 2) := by
    simpa [sampleChild, Asteroid.integrate_scale] using h
  rw [h2]
  rfl

/-- In the sample scene an asteroid that is not expired and has scale.y >= 1/2 collides
with the projectile and appends its sample child. -/
theorem sampleChild_mem (a : Asteroid) (hage : a.age ≤ 10) (hy : -10 ≤ a.position.y)
    (hs : 1 / 2 ≤ a.scale.y) :
    Obj.asteroid (sampleChild a) ∈
      Scene.added (sampleHitScene a)
        (a.update 0 sampleEnv (sampleHitScene a) 0 sampleRng).scene := by
  have hne : ¬ (a.integrate 0).expired := by
    unfold Asteroid.expired
    rw [Asteroid.integrate_age, Asteroid.integrate_zero_position]
    rintro (h | h) <;> linarith
  have hhit : (a.integrate 0).hits (Obj.projectile (sampleProjectile a.position Vec3.one)) := by
    refine ⟨by simp [Obj.asProjectile], by simp [Obj.asAsteroid], ?_⟩
    rw [Asteroid.integrate_zero_position]
    simp only [Obj.position, Obj.scale, sampleProjectile, Asteroid.integrate_scale, Vec3.one]
    unfold Vec3.distanceLt
    rw [Vec3.distSq_self]
    constructor
    · nlinarith
    · nlinarith
  have hcol : (a.integrate 0).collides 0 (sampleHitScene a) :=
    ⟨1, _, rfl, by decide, hhit⟩
  obtain ⟨-, -, e, hadded⟩ :=
    Asteroid.update_collides_added a 0 sampleEnv (sampleHitScene a) 0 sampleRng hne hcol
  rw [hadded, Asteroid.pieceCount_large (a.integrate 0) hs]
  have h3 : (3 : Int).toNat = 3 := rfl
  rw [h3]
  simp [Asteroid.fragmentsFrom, sampleChild]

theorem sampleGen_age (n : Nat) : (sampleGen n).age ≤ 10 := by
  cases n with
  | zero => norm_num [sampleGen, bigRock, sampleAsteroid]
  | succ n =>
    rw [sampleGen, sampleChild_age]
    norm_num

theorem sampleGen_position (n : Nat) : (sampleGen n).position = Vec3.zero := by
  induction n with
  | zero => rfl
  | succ n ih => rw [sampleGen, sampleChild_position, ih]

theorem sampleGen_scale_y (n : Nat) : (sampleGen n).scale.y = 3 / (3 / 2) ^ n := by
  induction n with
  | zero => norm_num [sampleGen, bigRock, sampleAsteroid]
  | succ n ih => rw [sampleGen, sampleChild_scale_y, ih, pow_succ, div_div]

/-- The first five generations of the sample line of descent are descendants of
bigRock. -/
theorem sampleGen_descendant (n : Nat) (hn : n ≤ 5) :
    Asteroid.Descendant sampleEnv n bigRock (sampleGen n) := by
  induction n with
  | zero => exact Asteroid.Descendant.self bigRock
  | succ n ih =>
    have hle : n ≤ 4 := by omega
    have hs : 1 / 2 ≤ (sampleGen n).scale.y := by
      rw [sampleGen_scale_y]
      interval_cases n <;> norm_num
    have hy : -10 ≤ (sampleGen n).position.y := by
      rw [sampleGen_position]
      norm_num [Vec3.zero]
    exact Asteroid.Descendant.fragment n bigRock (sampleGen n) (sampleGen (n + 1)) [] 0
      (sampleHitScene (sampleGen n)) 0 sampleRng (ih (by omega))
      (sampleChild_mem (sampleGen n) (sampleGen_age n) hy hs)

/-- Witness of C20: the fifth generation of the sample line of descent from bigRock,
whose scale.y is 3. -/
theorem fragmentation_depth_bounded_witness :
    (sampleGen 5).scale.y = bigRock.scale.y / (3 / 2) ^ 5 ∧
      (sampleGen 5).scale.y < 1 / 2 ∧ (sampleGen 5).pieceCount = 0 ∧
      (sampleGen 5).neverSplits sampleEnv :=
  have h := fragmentation_depth_bounded sampleEnv 5 bigRock (sampleGen 5)
    (sampleGen_descendant 5 (le_refl 5))
  ⟨h.1, h.2.2 (by norm_num [bigRock, sampleAsteroid]) (le_refl 5)⟩

end Gl9Scene
